import Mathlib

/-!
Verification development for the storm-analysis fitting core.

The definitions below are a shallow embedding of the C sources
`sa_library/dao_fit.c` and `multi_plane/mp_fit.c` (together with the
constants of `sa_library/multi_fit.h`).  C `double` arithmetic is
embedded as exact rational arithmetic; transcendental library calls
(`exp`, `sqrt`, `log`) are supplied through an explicit environment
record `CEnv`, and the external LAPACK solver `dposv_` is supplied as
an oracle parameter.  Pixel arrays are embedded as total functions from
the flat (row-major) integer offset.  Functions of `multi_fit.c`, which
is not part of the sources (only its header is), are modelled from the
specification and are marked as such in their doc comments.
-/

/-- Constant `HYSTERESIS` of dao_fit.c / mp_fit.c (0.6). -/
def HYSTERESIS : ℚ := 3/5

/-- Constant `MARGIN` of dao_fit.c (10). -/
def MARGIN : ℤ := 10

/-- Peak status flag `RUNNING` of multi_fit.h. -/
def RUNNING : ℤ := 0

/-- Peak status flag `CONVERGED` of multi_fit.h. -/
def CONVERGED : ℤ := 1

/-- Peak status flag `ERROR` of multi_fit.h. -/
def ERROR : ℤ := 2

/-- Parameter index `HEIGHT` of multi_fit.h. -/
def HEIGHT : ℕ := 0

/-- Parameter index `XCENTER` of multi_fit.h. -/
def XCENTER : ℕ := 1

/-- Parameter index `XWIDTH` of multi_fit.h. -/
def XWIDTH : ℕ := 2

/-- Parameter index `YCENTER` of multi_fit.h. -/
def YCENTER : ℕ := 3

/-- Parameter index `YWIDTH` of multi_fit.h. -/
def YWIDTH : ℕ := 4

/-- Parameter index `BACKGROUND` of multi_fit.h. -/
def BACKGROUND : ℕ := 5

/-- Parameter index `ZCENTER` of multi_fit.h. -/
def ZCENTER : ℕ := 6

/-- Results index `STATUS` of multi_fit.h. -/
def STATUS : ℕ := 7

/-- Results index `IERROR` of multi_fit.h. -/
def IERROR : ℕ := 8

/-- Constant `NPEAKPAR` of multi_fit.h (9 result columns per peak). -/
def NPEAKPAR : ℕ := 9

/-- Modelled from the spec: the Levenberg-Marquardt damping step-up factor
`LAMBDAUP` (defined in the newer multi_fit.h, which is not in src/; the
spec gives 4.0 as the calibration value). -/
def LAMBDAUP : ℚ := 4

/-- Modelled from the spec: the Levenberg-Marquardt damping step-down factor
`LAMBDADOWN` (defined in the newer multi_fit.h, which is not in src/; the
spec gives 0.9 as the calibration value). -/
def LAMBDADOWN : ℚ := 9/10

/-- C cast of a `double` to `int`: truncation toward zero. -/
def cInt (x : ℚ) : ℤ := if 0 ≤ x then ⌊x⌋ else -⌊-x⌋

/-- C library `round`: round half away from zero. -/
def cRound (x : ℚ) : ℤ := if 0 ≤ x then ⌊x + 1/2⌋ else -⌊-x + 1/2⌋

/-- Sign of a rational, as used by the sign memory of the clamped update. -/
def sgn (d : ℚ) : ℤ := if 0 < d then 1 else if d < 0 then -1 else 0

/-- Pointwise update of an integer-indexed array. -/
def updAt {α : Type} (f : ℤ → α) (m : ℤ) (v : α) : ℤ → α :=
  fun i => if i = m then v else f i

/-- Pointwise update of a natural-indexed array. -/
def updAtN {α : Type} (f : ℕ → α) (m : ℕ) (v : α) : ℕ → α :=
  fun i => if i = m then v else f i

/-- List of the integers `a, a+1, ..., b` (empty when `b < a`), matching a C
loop `for(j=a;j<=b;j++)`. -/
def rangeZ (a b : ℤ) : List ℤ :=
  (List.range (b + 1 - a).toNat).map (fun n => a + (n : ℤ))

/-- Pixel offsets of a peak bounding box: the pairs `(j,k)` with
`-wy ≤ j ≤ wy` and `-wx ≤ k ≤ wx`, in the C loop order (j outer, k inner). -/
def boxList (wx wy : ℤ) : List (ℤ × ℤ) :=
  (rangeZ (-wy) wy).flatMap (fun j => (rangeZ (-wx) wx).map (fun k => (j, k)))

/-- Environment of external math-library functions used by the C code.
Rational arguments are passed through; a concrete instantiation must agree
with the real functions at the argument values actually reached. -/
structure CEnv where
  exp : ℚ → ℚ
  sqrt : ℚ → ℚ
  log : ℚ → ℚ

/-- Peak record: the `peakData` structure of multi_fit.h together with the
`daoPeak` model scratch of dao_fit.c (`wx_term`, `wy_term` and the
`xt`/`ext`/`yt`/`eyt` cache arrays), flattened into one structure. -/
structure PeakData where
  offset : ℤ
  status : ℤ
  wx : ℤ
  wy : ℤ
  xc : ℤ
  yc : ℤ
  error : ℚ
  error_old : ℚ
  sign : ℕ → ℤ
  clamp : ℕ → ℚ
  params : ℕ → ℚ
  wx_term : ℚ
  wy_term : ℚ
  xt : ℤ → ℚ
  ext : ℤ → ℚ
  yt : ℤ → ℚ
  eyt : ℤ → ℚ

/-- Fit state: the `fitData` structure of multi_fit.h together with the
`daoFit` model data of dao_fit.c (`zfit`, `wx_z_params`, `wy_z_params`).
Pixel arrays are total functions of a flat offset. -/
structure FitData where
  nfit : ℕ
  image_size_x : ℤ
  image_size_y : ℤ
  n_dposv : ℤ
  n_margin : ℤ
  n_neg_fi : ℤ
  n_neg_height : ℤ
  n_neg_width : ℤ
  tolerance : ℚ
  min_z : ℚ
  max_z : ℚ
  bg_counts : ℤ → ℤ
  bg_data : ℤ → ℚ
  f_data : ℤ → ℚ
  scmos_term : ℤ → ℚ
  x_data : ℤ → ℚ
  clamp_start : ℕ → ℚ
  fit : List PeakData
  zfit : Bool
  wx_z_params : ℕ → ℚ
  wy_z_params : ℕ → ℚ

/-- Clamped step: `delta / (1 + |delta| / clamp)` (spec section 4.4). -/
def clampedDelta (d c : ℚ) : ℚ := d / (1 + |d| / c)

/-- Modelled from the spec: `updateParams` of multi_fit.c (declared in
multi_fit.h; the definition is not in src/).  Spec section 4.4: for each
parameter `p`, `delta = J_p / (1 + |J_p| / clamp_p); p <- p - delta`; if
the sign of `delta` reverses from the previous iteration for this
parameter, `clamp_p` is halved.  A zero step leaves the sign memory and
clamp unchanged. -/
def updateParams (p : PeakData) (delta : ℕ → ℚ) : PeakData :=
  { p with
    params := fun i => p.params i - clampedDelta (delta i) (p.clamp i),
    clamp := fun i =>
      if p.sign i * sgn (clampedDelta (delta i) (p.clamp i)) < 0 then
        p.clamp i / 2
      else p.clamp i,
    sign := fun i =>
      if clampedDelta (delta i) (p.clamp i) = 0 then p.sign i
      else sgn (clampedDelta (delta i) (p.clamp i)) }

/-- Integer-center hysteresis in x (dao_fit.c, fitDataUpdate lines 284-286):
the anchor `xc` moves to `(int)XCENTER` only when
`|XCENTER - xc - 0.5| > HYSTERESIS`. -/
def daoHystX (p : PeakData) : PeakData :=
  if |p.params XCENTER - (p.xc : ℚ) - 1/2| > HYSTERESIS then
    { p with xc := cInt (p.params XCENTER) }
  else p

/-- Integer-center hysteresis in y (dao_fit.c, fitDataUpdate lines 287-289). -/
def daoHystY (p : PeakData) : PeakData :=
  if |p.params YCENTER - (p.yc : ℚ) - 1/2| > HYSTERESIS then
    { p with yc := cInt (p.params YCENTER) }
  else p

/-- Margin check (dao_fit.c, fitDataUpdate lines 291-301): a peak whose
anchor satisfies `xc <= MARGIN`, `xc >= image_size_x - MARGIN - 1`,
`yc <= MARGIN` or `yc >= image_size_y - MARGIN - 1` is flagged ERROR and
`n_margin` is incremented. -/
def daoMarginCheck (fd : FitData) (p : PeakData) : FitData × PeakData :=
  if p.xc ≤ MARGIN ∨ p.xc ≥ fd.image_size_x - MARGIN - 1 ∨
     p.yc ≤ MARGIN ∨ p.yc ≥ fd.image_size_y - MARGIN - 1 then
    ({ fd with n_margin := fd.n_margin + 1 }, { p with status := ERROR })
  else (fd, p)

/-- Negative-height check (dao_fit.c, fitDataUpdate lines 303-310). -/
def daoHeightCheck (fd : FitData) (p : PeakData) : FitData × PeakData :=
  if p.params HEIGHT < 0 then
    ({ fd with n_neg_height := fd.n_neg_height + 1 }, { p with status := ERROR })
  else (fd, p)

/-- Negative-width check (dao_fit.c, fitDataUpdate lines 312-319). -/
def daoWidthCheck (fd : FitData) (p : PeakData) : FitData × PeakData :=
  if p.params XWIDTH < 0 ∨ p.params YWIDTH < 0 then
    ({ fd with n_neg_width := fd.n_neg_width + 1 }, { p with status := ERROR })
  else (fd, p)

/-- Z-range clamp (dao_fit.c, fitDataUpdate lines 331-340): when `zfit` is
set, `ZCENTER` is clamped into `[min_z, max_z]`. -/
def daoZClamp (fd : FitData) (p : PeakData) : PeakData :=
  if fd.zfit then
    let p1 := if p.params ZCENTER < fd.min_z then
        { p with params := updAtN p.params ZCENTER fd.min_z } else p;
    if p1.params ZCENTER > fd.max_z then
      { p1 with params := updAtN p1.params ZCENTER fd.max_z } else p1
  else p

/-- Parameter update with validity checks (dao_fit.c, `fitDataUpdate`,
lines 276-342): apply `updateParams`, move the integer anchor with
hysteresis, then run the margin, height, width and z-range checks. -/
def fitDataUpdate (fd : FitData) (p : PeakData) (delta : ℕ → ℚ) :
    FitData × PeakData :=
  let p1 := daoHystY (daoHystX (updateParams p delta));
  let r1 := daoMarginCheck fd p1;
  let r2 := daoHeightCheck r1.1 r1.2;
  let r3 := daoWidthCheck r2.1 r2.2;
  (r3.1, daoZClamp r3.1 r3.2)

/-- Bounding-box size from a peak width (dao_fit.c, `calcWidth`,
lines 176-198).  `tmp = 4*sqrt(1/(2*peak_width))`; the box size changes
only when `|tmp - old_w - 0.5| > HYSTERESIS`, and is capped at MARGIN. -/
def calcWidth (env : CEnv) (peak_width : ℚ) (old_w : ℤ) : ℤ :=
  if peak_width < 0 then 1
  else
    let tmp := 4 * env.sqrt (1 / (2 * peak_width));
    let new_w := if |tmp - (old_w : ℚ) - 1/2| > HYSTERESIS then cInt tmp else old_w;
    if new_w > MARGIN then MARGIN else new_w

/-- Width-from-z computation (dao_fit.c, `calcWidthsFromZ`, lines 209-235):
with `z0 = (ZCENTER - c) / d` and
`tmp = 1 + z0^2 + A*z0^3 + B*z0^4` (coefficients `[w0sq, c, d, A, B]`
stored by `initializeZParameters`), sets `wx_term = tmp*tmp`,
`XWIDTH = 2/(w0sq * tmp)`, and symmetrically for y. -/
def calcWidthsFromZ (fd : FitData) (p : PeakData) : PeakData :=
  let z0x := (p.params ZCENTER - fd.wx_z_params 1) / fd.wx_z_params 2;
  let z1x := z0x * z0x;
  let z2x := z1x * z0x;
  let z3x := z2x * z0x;
  let tmpx := 1 + z1x + fd.wx_z_params 3 * z2x + fd.wx_z_params 4 * z3x;
  let z0y := (p.params ZCENTER - fd.wy_z_params 1) / fd.wy_z_params 2;
  let z1y := z0y * z0y;
  let z2y := z1y * z0y;
  let z3y := z2y * z0y;
  let tmpy := 1 + z1y + fd.wy_z_params 3 * z2y + fd.wy_z_params 4 * z3y;
  { p with
    wx_term := tmpx * tmpx,
    wy_term := tmpy * tmpy,
    params := updAtN (updAtN p.params XWIDTH (2 / (fd.wx_z_params 0 * tmpx)))
      YWIDTH (2 / (fd.wy_z_params 0 * tmpy)) }

/-- Z-mode initialization (dao_fit.c, `initializeZParameters`,
lines 412-429): copies the five `[w0, c, d, A, B]` coefficients, then
squares the first one in place; sets `zfit` and the z range. -/
def initializeZParameters (fd : FitData) (wx_vs_z wy_vs_z : ℕ → ℚ)
    (z_min z_max : ℚ) : FitData :=
  { fd with
    zfit := true,
    wx_z_params := updAtN wx_vs_z 0 (wx_vs_z 0 * wx_vs_z 0),
    wy_z_params := updAtN wy_vs_z 0 (wy_vs_z 0 * wy_vs_z 0),
    min_z := z_min,
    max_z := z_max }

/-- Cache fill in x (dao_fit.c, `addPeak`, lines 141-146): for each column
`j` of the bounding box, stores `xt = j - XCENTER` and
`ext = exp(-xt*xt*XWIDTH)` at cache index `j - xc + wx`. -/
def fillXCache (env : CEnv) (p : PeakData) : PeakData :=
  (rangeZ (p.xc - p.wx) (p.xc + p.wx)).foldl
    (fun (q : PeakData) (j : ℤ) =>
      let xt := (j : ℚ) - q.params XCENTER;
      { q with
        xt := updAt q.xt (j - q.xc + q.wx) xt,
        ext := updAt q.ext (j - q.xc + q.wx)
          (env.exp (-xt * xt * q.params XWIDTH)) })
    p

/-- Cache fill in y (dao_fit.c, `addPeak`, lines 147-152). -/
def fillYCache (env : CEnv) (p : PeakData) : PeakData :=
  (rangeZ (p.yc - p.wy) (p.yc + p.wy)).foldl
    (fun (q : PeakData) (j : ℤ) =>
      let yt := (j : ℚ) - q.params YCENTER;
      { q with
        yt := updAt q.yt (j - q.yc + q.wy) yt,
        eyt := updAt q.eyt (j - q.yc + q.wy)
          (env.exp (-yt * yt * q.params YWIDTH)) })
    p

/-- Gaussian accumulation loop of `addPeak` (dao_fit.c, lines 154-166): for
every box pixel, adds `HEIGHT * eyt * ext` to `f_data`, `1` to `bg_counts`
and `BACKGROUND + scmos_term` to `bg_data`. -/
def gaussAdd (fd : FitData) (p : PeakData) : FitData :=
  let l := p.offset;
  let sx := fd.image_size_x;
  let bg := p.params BACKGROUND;
  let mag := p.params HEIGHT;
  let sc := fd.scmos_term;
  (boxList p.wx p.wy).foldl
    (fun ar jk =>
      let m := jk.1 * sx + jk.2 + l;
      { ar with
        f_data := updAt ar.f_data m
          (ar.f_data m + mag * p.eyt (jk.1 + p.wy) * p.ext (jk.2 + p.wx)),
        bg_counts := updAt ar.bg_counts m (ar.bg_counts m + 1),
        bg_data := updAt ar.bg_data m (ar.bg_data m + (bg + sc m)) })
    fd

/-- Peak addition (dao_fit.c, `addPeak`, lines 126-167): records the flat
offset of the anchor, refreshes the exponential caches, then runs the
gaussian accumulation loop over the bounding box. -/
def addPeak (env : CEnv) (fd : FitData) (p : PeakData) : FitData × PeakData :=
  let p0 := { p with offset := p.yc * fd.image_size_x + p.xc };
  let p1 := fillYCache env (fillXCache env p0);
  (gaussAdd fd p1, p1)

/-- Peak subtraction (dao_fit.c, `subtractPeak`, lines 631-655): undoes the
gaussian accumulation loop of `addPeak`, using the cached exponentials. -/
def subtractPeak (fd : FitData) (p : PeakData) : FitData :=
  let l := p.offset;
  let sx := fd.image_size_x;
  let bg := p.params BACKGROUND;
  let mag := p.params HEIGHT;
  let sc := fd.scmos_term;
  (boxList p.wx p.wy).foldl
    (fun ar jk =>
      let m := jk.1 * sx + jk.2 + l;
      { ar with
        f_data := updAt ar.f_data m
          (ar.f_data m - mag * p.eyt (jk.1 + p.wy) * p.ext (jk.2 + p.wx)),
        bg_counts := updAt ar.bg_counts m (ar.bg_counts m - 1),
        bg_data := updAt ar.bg_data m (ar.bg_data m - (bg + sc m)) })
    fd

/-- Modelled from the spec: `calcErr` of multi_fit.c (declared in
multi_fit.h; the definition is not in src/).  Spec sections 4.2 and 4.4:
for a RUNNING peak, over its bounding box the modelled rate is
`fi = f_data + bg_data/bg_counts` and the data is `xi = x_data +
scmos_term`; if any `fi <= 0` the peak is removed from the residual,
flagged ERROR and `n_neg_fi` is incremented; otherwise the likelihood
surrogate `L = sum 2*(fi - xi - xi*ln(fi/xi))` is stored
(`error_old <- error; error <- L`) and the peak is marked CONVERGED
exactly when `|error - error_old| / error_old < tolerance`.  Terminal
statuses persist (spec section 3, lifecycle). -/
def calcErrStep (env : CEnv) (fd : FitData) (p : PeakData) : FitData × PeakData :=
  if p.status = RUNNING then
    let l := p.offset;
    let sx := fd.image_size_x;
    let fiOf := fun (jk : ℤ × ℤ) =>
      let m := jk.1 * sx + jk.2 + l;
      fd.f_data m + fd.bg_data m / (fd.bg_counts m : ℚ);
    if (boxList p.wx p.wy).any (fun jk => if fiOf jk ≤ 0 then true else false) then
      let fd1 := subtractPeak fd p;
      ({ fd1 with n_neg_fi := fd1.n_neg_fi + 1 }, { p with status := ERROR })
    else
      let L := ((boxList p.wx p.wy).map (fun jk =>
        let m := jk.1 * sx + jk.2 + l;
        let fi := fiOf jk;
        let xi := fd.x_data m + fd.scmos_term m;
        2 * (fi - xi - xi * env.log (fi / xi)))).sum;
      let p1 := { p with error_old := p.error, error := L };
      if |p1.error - p1.error_old| / p1.error_old < fd.tolerance then
        (fd, { p1 with status := CONVERGED })
      else (fd, p1)
  else (fd, p)

/-- Modelled from the spec: the dense SPD solve (LAPACK `dposv_`, external
to the repository; spec section 4.1).  An oracle receives the dimension,
the flat Hessian and the Jacobian and returns `some` update vector, or
`none` for the nonzero LAPACK status. -/
def Solver : Type := ℕ → (ℕ → ℚ) → (ℕ → ℚ) → Option (ℕ → ℚ)

/-- Jacobian / Hessian accumulation loop of `update2DFixed` (hoisted
verbatim from the body). -/
def jhFold2DFixed (fd : FitData) (p : PeakData) : (ℕ → ℚ) × (ℕ → ℚ) :=
let l := p.offset;
let sx := fd.image_size_x;
let wx := p.wx;
let wy := p.wy;
let a1 := p.params HEIGHT;
let width := p.params XWIDTH;
  (boxList wx wy).foldl
  (fun (jh : (ℕ → ℚ) × (ℕ → ℚ)) jk =>
    let m := jk.1 * sx + jk.2 + l;
    let fi := fd.f_data m + fd.bg_data m / (fd.bg_counts m : ℚ);
    let xi := fd.x_data m;
    let xt := p.xt (jk.2 + wx);
    let ext := p.ext (jk.2 + wx);
    let yt := p.yt (jk.1 + wy);
    let eyt := p.eyt (jk.1 + wy);
    let e_t := ext * eyt;
    let jt : ℕ → ℚ := fun i =>
      if i = 0 then e_t
      else if i = 1 then 2 * a1 * width * xt * e_t
      else if i = 2 then 2 * a1 * width * yt * e_t
      else if i = 3 then 1 else 0;
    let t1 := 2 * (1 - xi / fi);
    let t2 := 2 * xi / (fi * fi);
    let hw : ℕ → ℚ := fun i =>
      if i = 0 then jt 0 * jt 0 else if i = 1 then jt 0 * jt 1
      else if i = 2 then jt 0 * jt 2 else if i = 3 then jt 0 * jt 3
      else if i = 5 then jt 1 * jt 1 else if i = 6 then jt 1 * jt 2
      else if i = 7 then jt 1 * jt 3 else if i = 10 then jt 2 * jt 2
      else if i = 11 then jt 2 * jt 3 else if i = 15 then jt 3 * jt 3
      else 0;
    (fun i => jh.1 i + t1 * jt i, fun i => jh.2 i + t2 * hw i))
  (fun _ => 0, fun _ => 0)

/-- Fixed-width 2D update (dao_fit.c, `update2DFixed`, lines 669-783): for a
RUNNING peak, accumulate the n=4 Jacobian and Hessian over the bounding
box, subtract the peak, solve, and on success apply `fitDataUpdate` with
the HEIGHT/XCENTER/YCENTER/BACKGROUND deltas, re-adding the peak unless it
was flagged ERROR. -/
def update2DFixed (env : CEnv) (sol : Solver) (fd : FitData) (p : PeakData) :
    FitData × PeakData :=
  if p.status = RUNNING then
    let jh := jhFold2DFixed fd p;
    let fd1 := subtractPeak fd p;
    match sol 4 jh.2 jh.1 with
    | none => ({ fd1 with n_dposv := fd1.n_dposv + 1 }, { p with status := ERROR })
    | some s =>
      let delta : ℕ → ℚ := fun i =>
        if i = HEIGHT then s 0 else if i = XCENTER then s 1
        else if i = YCENTER then s 2 else if i = BACKGROUND then s 3 else 0;
      let r := fitDataUpdate fd1 p delta;
      if r.2.status ≠ ERROR then addPeak env r.1 r.2 else r
  else (fd, p)

/-- Jacobian / Hessian accumulation loop of `update2D` (hoisted
verbatim from the body). -/
def jhFold2D (fd : FitData) (p : PeakData) : (ℕ → ℚ) × (ℕ → ℚ) :=
let l := p.offset;
let sx := fd.image_size_x;
let wx := p.wx;
let wy := p.wy;
let a1 := p.params HEIGHT;
let width := p.params XWIDTH;
  (boxList wx wy).foldl
  (fun (jh : (ℕ → ℚ) × (ℕ → ℚ)) jk =>
    let m := jk.1 * sx + jk.2 + l;
    let fi := fd.f_data m + fd.bg_data m / (fd.bg_counts m : ℚ);
    let xi := fd.x_data m;
    let xt := p.xt (jk.2 + wx);
    let ext := p.ext (jk.2 + wx);
    let yt := p.yt (jk.1 + wy);
    let eyt := p.eyt (jk.1 + wy);
    let e_t := ext * eyt;
    let jt : ℕ → ℚ := fun i =>
      if i = 0 then e_t
      else if i = 1 then 2 * a1 * width * xt * e_t
      else if i = 2 then 2 * a1 * width * yt * e_t
      else if i = 3 then -a1 * xt * xt * e_t - a1 * yt * yt * e_t
      else if i = 4 then 1 else 0;
    let t1 := 2 * (1 - xi / fi);
    let t2 := 2 * xi / (fi * fi);
    let hw : ℕ → ℚ := fun i =>
      if i = 0 then jt 0 * jt 0 else if i = 1 then jt 0 * jt 1
      else if i = 2 then jt 0 * jt 2 else if i = 3 then jt 0 * jt 3
      else if i = 4 then jt 0 * jt 4 else if i = 6 then jt 1 * jt 1
      else if i = 7 then jt 1 * jt 2 else if i = 8 then jt 1 * jt 3
      else if i = 9 then jt 1 * jt 4 else if i = 12 then jt 2 * jt 2
      else if i = 13 then jt 2 * jt 3 else if i = 14 then jt 2 * jt 4
      else if i = 18 then jt 3 * jt 3 else if i = 19 then jt 3 * jt 4
      else if i = 24 then jt 4 * jt 4
      else 0;
    (fun i => jh.1 i + t1 * jt i, fun i => jh.2 i + t2 * hw i))
  (fun _ => 0, fun _ => 0)

/-- Equal-width 2D update (dao_fit.c, `update2D`, lines 797-923): n=5
system with the common-width column; on success the XWIDTH/YWIDTH deltas
both take the solved width component, and the box size is recomputed with
`calcWidth` (`wy = wx`) before re-adding. -/
def update2D (env : CEnv) (sol : Solver) (fd : FitData) (p : PeakData) :
    FitData × PeakData :=
  if p.status = RUNNING then
    let jh := jhFold2D fd p;
    let fd1 := subtractPeak fd p;
    match sol 5 jh.2 jh.1 with
    | none => ({ fd1 with n_dposv := fd1.n_dposv + 1 }, { p with status := ERROR })
    | some s =>
      let delta : ℕ → ℚ := fun i =>
        if i = HEIGHT then s 0 else if i = XCENTER then s 1
        else if i = YCENTER then s 2 else if i = XWIDTH then s 3
        else if i = YWIDTH then s 3 else if i = BACKGROUND then s 4 else 0;
      let r := fitDataUpdate fd1 p delta;
      if r.2.status ≠ ERROR then
        let w := calcWidth env (r.2.params XWIDTH) r.2.wx;
        addPeak env r.1 { r.2 with wx := w, wy := w }
      else r
  else (fd, p)

/-- Jacobian / Hessian accumulation loop of `update3D` (hoisted
verbatim from the body). -/
def jhFold3D (fd : FitData) (p : PeakData) : (ℕ → ℚ) × (ℕ → ℚ) :=
let l := p.offset;
let sx := fd.image_size_x;
let wx := p.wx;
let wy := p.wy;
let a1 := p.params HEIGHT;
let a3 := p.params XWIDTH;
let a5 := p.params YWIDTH;
  (boxList wx wy).foldl
  (fun (jh : (ℕ → ℚ) × (ℕ → ℚ)) jk =>
    let m := jk.1 * sx + jk.2 + l;
    let fi := fd.f_data m + fd.bg_data m / (fd.bg_counts m : ℚ);
    let xi := fd.x_data m;
    let xt := p.xt (jk.2 + wx);
    let ext := p.ext (jk.2 + wx);
    let yt := p.yt (jk.1 + wy);
    let eyt := p.eyt (jk.1 + wy);
    let e_t := ext * eyt;
    let jt : ℕ → ℚ := fun i =>
      if i = 0 then e_t
      else if i = 1 then 2 * a1 * a3 * xt * e_t
      else if i = 2 then -a1 * xt * xt * e_t
      else if i = 3 then 2 * a1 * a5 * yt * e_t
      else if i = 4 then -a1 * yt * yt * e_t
      else if i = 5 then 1 else 0;
    let t1 := 2 * (1 - xi / fi);
    let t2 := 2 * xi / (fi * fi);
    let hw : ℕ → ℚ := fun i =>
      if i = 0 then jt 0 * jt 0 else if i = 1 then jt 0 * jt 1
      else if i = 2 then jt 0 * jt 2 else if i = 3 then jt 0 * jt 3
      else if i = 4 then jt 0 * jt 4 else if i = 5 then jt 0 * jt 5
      else if i = 7 then jt 1 * jt 1 else if i = 8 then jt 1 * jt 2
      else if i = 9 then jt 1 * jt 3 else if i = 10 then jt 1 * jt 4
      else if i = 11 then jt 1 * jt 5 else if i = 14 then jt 2 * jt 2
      else if i = 15 then jt 2 * jt 3 else if i = 16 then jt 2 * jt 4
      else if i = 17 then jt 2 * jt 5 else if i = 21 then jt 3 * jt 3
      else if i = 22 then jt 3 * jt 4 else if i = 23 then jt 3 * jt 5
      else if i = 28 then jt 4 * jt 4 else if i = 29 then jt 4 * jt 5
      else if i = 35 then jt 5 * jt 5
      else 0;
    (fun i => jh.1 i + t1 * jt i, fun i => jh.2 i + t2 * hw i))
  (fun _ => 0, fun _ => 0)

/-- Free 3D update (dao_fit.c, `update3D`, lines 937-1077): n=6 system with
independent XWIDTH/YWIDTH columns; on success both box sizes are
recomputed with `calcWidth` before re-adding. -/
def update3D (env : CEnv) (sol : Solver) (fd : FitData) (p : PeakData) :
    FitData × PeakData :=
  if p.status = RUNNING then
    let jh := jhFold3D fd p;
    let fd1 := subtractPeak fd p;
    match sol 6 jh.2 jh.1 with
    | none => ({ fd1 with n_dposv := fd1.n_dposv + 1 }, { p with status := ERROR })
    | some s =>
      let delta : ℕ → ℚ := fun i =>
        if i = HEIGHT then s 0 else if i = XCENTER then s 1
        else if i = XWIDTH then s 2 else if i = YCENTER then s 3
        else if i = YWIDTH then s 4 else if i = BACKGROUND then s 5 else 0;
      let r := fitDataUpdate fd1 p delta;
      if r.2.status ≠ ERROR then
        addPeak env r.1 { r.2 with
          wx := calcWidth env (r.2.params XWIDTH) r.2.wx,
          wy := calcWidth env (r.2.params YWIDTH) r.2.wy }
      else r
  else (fd, p)

/-- Jacobian / Hessian accumulation loop of `updateZ` (hoisted
verbatim from the body). -/
def jhFoldZ (fd : FitData) (p : PeakData) : (ℕ → ℚ) × (ℕ → ℚ) :=
let l := p.offset;
let sx := fd.image_size_x;
let wx := p.wx;
let wy := p.wy;
let a1 := p.params HEIGHT;
let a3 := p.params XWIDTH;
let a5 := p.params YWIDTH;
let z0x := (p.params ZCENTER - fd.wx_z_params 1) / fd.wx_z_params 2;
let ztx := 2 * z0x + 3 * fd.wx_z_params 3 * (z0x * z0x)
  + 4 * fd.wx_z_params 4 * (z0x * z0x * z0x);
let gx := -2 * ztx / (fd.wx_z_params 0 * p.wx_term);
let z0y := (p.params ZCENTER - fd.wy_z_params 1) / fd.wy_z_params 2;
let zty := 2 * z0y + 3 * fd.wy_z_params 3 * (z0y * z0y)
  + 4 * fd.wy_z_params 4 * (z0y * z0y * z0y);
let gy := -2 * zty / (fd.wy_z_params 0 * p.wy_term);
  (boxList wx wy).foldl
  (fun (jh : (ℕ → ℚ) × (ℕ → ℚ)) jk =>
    let m := jk.1 * sx + jk.2 + l;
    let fi := fd.f_data m + fd.bg_data m / (fd.bg_counts m : ℚ);
    let xi := fd.x_data m;
    let xt := p.xt (jk.2 + wx);
    let ext := p.ext (jk.2 + wx);
    let yt := p.yt (jk.1 + wy);
    let eyt := p.eyt (jk.1 + wy);
    let e_t := ext * eyt;
    let jt : ℕ → ℚ := fun i =>
      if i = 0 then e_t
      else if i = 1 then 2 * a1 * a3 * xt * e_t
      else if i = 2 then 2 * a1 * a5 * yt * e_t
      else if i = 3 then -a1 * xt * xt * gx * e_t - a1 * yt * yt * gy * e_t
      else if i = 4 then 1 else 0;
    let t1 := 2 * (1 - xi / fi);
    let t2 := 2 * xi / (fi * fi);
    let hw : ℕ → ℚ := fun i =>
      if i = 0 then jt 0 * jt 0 else if i = 1 then jt 0 * jt 1
      else if i = 2 then jt 0 * jt 2 else if i = 3 then jt 0 * jt 3
      else if i = 4 then jt 0 * jt 4 else if i = 6 then jt 1 * jt 1
      else if i = 7 then jt 1 * jt 2 else if i = 8 then jt 1 * jt 3
      else if i = 9 then jt 1 * jt 4 else if i = 12 then jt 2 * jt 2
      else if i = 13 then jt 2 * jt 3 else if i = 14 then jt 2 * jt 4
      else if i = 18 then jt 3 * jt 3 else if i = 19 then jt 3 * jt 4
      else if i = 24 then jt 4 * jt 4
      else 0;
    (fun i => jh.1 i + t1 * jt i, fun i => jh.2 i + t2 * hw i))
  (fun _ => 0, fun _ => 0)

/-- Z-coupled update (dao_fit.c, `updateZ`, lines 1091-1238): n=5 system
with the chain-rule factors gx, gy in the ZCENTER column; on success the
widths are recomputed from z and the box sizes from `calcWidth` before
re-adding. -/
def updateZ (env : CEnv) (sol : Solver) (fd : FitData) (p : PeakData) :
    FitData × PeakData :=
  if p.status = RUNNING then
    let jh := jhFoldZ fd p;
    let fd1 := subtractPeak fd p;
    match sol 5 jh.2 jh.1 with
    | none => ({ fd1 with n_dposv := fd1.n_dposv + 1 }, { p with status := ERROR })
    | some s =>
      let delta : ℕ → ℚ := fun i =>
        if i = HEIGHT then s 0 else if i = XCENTER then s 1
        else if i = YCENTER then s 2 else if i = ZCENTER then s 3
        else if i = BACKGROUND then s 4 else 0;
      let r := fitDataUpdate fd1 p delta;
      if r.2.status ≠ ERROR then
        let q := calcWidthsFromZ r.1 r.2;
        addPeak env r.1 { q with
          wx := calcWidth env (q.params XWIDTH) q.wx,
          wy := calcWidth env (q.params YWIDTH) q.wy }
      else r
  else (fd, p)

/-- Sequential pass of a per-peak step over the stored peak array, in the
stable array order, threading the fit state (the step functions never read
the peak array itself). -/
def mapPeaks (step : FitData → PeakData → FitData × PeakData)
    (fd : FitData) : FitData :=
  let z := fd.fit.foldl
    (fun (acc : FitData × List PeakData) p =>
      let s := step acc.1 p; (s.1, s.2 :: acc.2))
    (fd, ([] : List PeakData));
  { z.1 with fit := z.2.reverse }

/-- Outer iteration, fixed widths (dao_fit.c, `iterate2DFixed`,
lines 438-459): one update pass, then one error pass. -/
def iterate2DFixed (env : CEnv) (sol : Solver) (fd : FitData) : FitData :=
  mapPeaks (calcErrStep env) (mapPeaks (update2DFixed env sol) fd)

/-- Outer iteration, equal widths (dao_fit.c, `iterate2D`, lines 468-482). -/
def iterate2D (env : CEnv) (sol : Solver) (fd : FitData) : FitData :=
  mapPeaks (calcErrStep env) (mapPeaks (update2D env sol) fd)

/-- Outer iteration, free widths (dao_fit.c, `iterate3D`, lines 490-504). -/
def iterate3D (env : CEnv) (sol : Solver) (fd : FitData) : FitData :=
  mapPeaks (calcErrStep env) (mapPeaks (update3D env sol) fd)

/-- Outer iteration, z-coupled widths (dao_fit.c, `iterateZ`,
lines 513-527). -/
def iterateZ (env : CEnv) (sol : Solver) (fd : FitData) : FitData :=
  mapPeaks (calcErrStep env) (mapPeaks (updateZ env sol) fd)

/-- Peak-set replacement (dao_fit.c, `newPeaks`, lines 537-620): resets the
diagnostics counters and the residual arrays, frees the previous peaks,
and builds exactly `n_peaks` fresh peaks from the 9-wide input records,
adding each to the residual; a final error pass initializes the errors. -/
def newPeaks (env : CEnv) (fd : FitData) (peak_data : ℕ → ℚ)
    (n_peaks : ℕ) : FitData :=
  let fd0 := { fd with
    n_dposv := 0, n_margin := 0, n_neg_fi := 0,
    n_neg_height := 0, n_neg_width := 0,
    bg_counts := fun _ => 0, bg_data := fun _ => 0, f_data := fun _ => 0 };
  let z := (List.range n_peaks).foldl
    (fun (acc : FitData × List PeakData) i =>
      let st := cInt (peak_data (i * NPEAKPAR + STATUS));
      let e := if st = RUNNING then 0 else peak_data (i * NPEAKPAR + IERROR);
      let pars0 : ℕ → ℚ := fun j =>
        if j = HEIGHT then peak_data (i * NPEAKPAR + HEIGHT)
        else if j = XCENTER then peak_data (i * NPEAKPAR + XCENTER)
        else if j = YCENTER then peak_data (i * NPEAKPAR + YCENTER)
        else if j = BACKGROUND then peak_data (i * NPEAKPAR + BACKGROUND)
        else if j = ZCENTER then peak_data (i * NPEAKPAR + ZCENTER)
        else 0;
      let p0 : PeakData := {
        offset := 0, status := st, wx := 0, wy := 0, xc := 0, yc := 0,
        error := e, error_old := e,
        sign := fun _ => 0,
        clamp := fun j => acc.1.clamp_start j,
        params := pars0,
        wx_term := 0, wy_term := 0,
        xt := fun _ => 0, ext := fun _ => 0,
        yt := fun _ => 0, eyt := fun _ => 0 };
      let xwIn := peak_data (i * NPEAKPAR + XWIDTH);
      let ywIn := peak_data (i * NPEAKPAR + YWIDTH);
      let p1 := if acc.1.zfit then calcWidthsFromZ acc.1 p0
        else { p0 with params := updAtN (updAtN p0.params XWIDTH (1 / (2 * xwIn * xwIn))) YWIDTH (1 / (2 * ywIn * ywIn)) };
      let p2 := { p1 with
        xc := cInt (p1.params XCENTER), yc := cInt (p1.params YCENTER) };
      let p3 := { p2 with
        wx := calcWidth env (p2.params XWIDTH) (-10),
        wy := calcWidth env (p2.params YWIDTH) (-10) };
      let ap := addPeak env acc.1 p3;
      (ap.1, ap.2 :: acc.2))
    (fd0, ([] : List PeakData));
  mapPeaks (calcErrStep env) { z.1 with nfit := n_peaks, fit := z.2.reverse }

/-- C loop `for(i=s;i<s+n;i++){ a[i] = g(i, a[i]); }` over an array of
channel states: every iteration rewrites only the entry at its own index. -/
def chanUpd {α : Type} (g : ℕ → α → α) (s n : ℕ) (F : ℕ → α) : ℕ → α :=
  (List.range' s n).foldl (fun G i => updAtN G i (g i (G i))) F

/-- C loop updating two parallel arrays at the same index per iteration. -/
def chanUpd2 {α β : Type} (g : ℕ → α → β → α × β) (s n : ℕ)
    (FH : (ℕ → α) × (ℕ → β)) : (ℕ → α) × (ℕ → β) :=
  (List.range' s n).foldl
    (fun a i =>
      let r := g i (a.1 i) (a.2 i);
      (updAtN a.1 i r.1, updAtN a.2 i r.2))
    FH

/-- Modelled from the spec: the peak record used by mp_fit.c.  The header in
src/ predates the fields `xi`, `yi`, `added`, `lambda` and `index` that
mp_fit.c accesses (spec section 3 lists them: integer center, added bit and
damping per peak); model scratch is irrelevant to the claims and omitted. -/
structure MpPeak where
  status : ℤ
  xi : ℤ
  yi : ℤ
  index : ℤ
  added : ℤ
  lambda : ℚ
  error : ℚ
  error_old : ℚ
  params : ℕ → ℚ

/-- Modelled from the spec: the per-channel fit state seen by mp_fit.c (the
newer fitData with `working_peak`, the committed peak array, per-channel
counters, the z range and the PSF half-pixel origin offsets `xoff`,
`yoff`).  The residual arrays live behind the per-model capability calls
and are not needed by the claims below. -/
structure MpFitData where
  nfit : ℕ
  working_peak : MpPeak
  fit : ℕ → MpPeak
  n_dposv : ℤ
  n_iterations : ℤ
  n_non_decr : ℤ
  min_z : ℚ
  max_z : ℚ
  xoff : ℚ
  yoff : ℚ

/-- Multi-plane coordinator state (mp_fit.c, `struct mpFit`, lines 43-90).
The affine transform arrays are flat with three coefficients per channel;
the weight arrays are flat with the z bin as the slow axis and the channel
as the fast axis; `w_jacobian` holds the per-channel solved update
vectors. -/
structure MpFit where
  im_size_x : ℤ
  im_size_y : ℤ
  independent_heights : ℤ
  n_channels : ℕ
  n_weights : ℤ
  nfit : ℕ
  w_z_offset : ℚ
  w_z_scale : ℚ
  tolerance : ℚ
  zmin : ℚ
  zmax : ℚ
  clamp_start : ℕ → ℚ
  xt_0toN : ℕ → ℚ
  yt_0toN : ℕ → ℚ
  xt_Nto0 : ℕ → ℚ
  yt_Nto0 : ℕ → ℚ
  w_bg : ℤ → ℚ
  w_h : ℤ → ℚ
  w_x : ℤ → ℚ
  w_y : ℤ → ℚ
  w_z : ℤ → ℚ
  heights : ℕ → ℚ
  w_jacobian : ℕ → ℕ → ℚ
  fit_data : ℕ → MpFitData

/-- Modelled from the spec: `mFitUpdateParam` of multi_fit.c (not in src/).
Spec sections 4.5 and 4.6.a: the Levenberg-Marquardt driver applies the
combined delta without clamping, `params[i] <- params[i] - delta`. -/
def mFitUpdateParam (p : MpPeak) (delta : ℚ) (ip : ℕ) : MpPeak :=
  { p with params := updAtN p.params ip (p.params ip - delta) }

/-- Modelled from the spec: the per-model `fn_zrange` capability
(ftFitZRangeCheck / pfitZRangeCheck / cfZRangeCheck, not in src/).  Spec
section 4.3: clamps the working peak's ZCENTER into `[min_z, max_z]`. -/
def mpZRange (cd : MpFitData) : MpFitData :=
  let z := cd.working_peak.params ZCENTER;
  let z1 := if z < cd.min_z then cd.min_z else if z > cd.max_z then cd.max_z else z;
  { cd with working_peak :=
    { cd.working_peak with params := updAtN cd.working_peak.params ZCENTER z1 } }

/-- Integer-center hysteresis of the multi-plane coordinator (mp_fit.c,
`mpUpdate`, lines 1123-1132): the anchor moves to `round(XCENTER)` only
when `|XCENTER - xi| > HYSTERESIS`, and likewise for y. -/
def mpHyst (pk : MpPeak) : MpPeak :=
  let pk1 := if |pk.params XCENTER - (pk.xi : ℚ)| > HYSTERESIS then
      { pk with xi := cRound (pk.params XCENTER) } else pk;
  if |pk1.params YCENTER - (pk1.yi : ℚ)| > HYSTERESIS then
    { pk1 with yi := cRound (pk1.params YCENTER) } else pk1

/-- Multi-plane coordinated parameter update (mp_fit.c, `mpUpdate`,
lines 1025-1155): computes the z-dependent weight index with range checks,
commits the weighted-average X and Y deltas to channel 0, maps channels
above 0 through the forward affine transform with the half-pixel origin
correction, applies integer-center hysteresis to every channel, commits
the weighted-average Z delta to every channel with the z-range clamp, and
updates every background independently. -/
def mpUpdate (mp : MpFit) : MpFit :=
  let nc := mp.n_channels;
  let fd0 := mp.fit_data 0;
  let xoff := fd0.xoff;
  let yoff := fd0.yoff;
  let zi0 := cInt (mp.w_z_scale * (fd0.working_peak.params ZCENTER - mp.w_z_offset));
  let zi1 := if zi0 < 0 then 0 else zi0;
  let zi := if zi1 ≥ mp.n_weights then mp.n_weights - 1 else zi1;
  let xa := (List.range nc).foldl
    (fun (a : ℚ × ℚ) i =>
      let d := mp.yt_Nto0 (i * 3 + 1) * mp.w_jacobian i 2
        + mp.yt_Nto0 (i * 3 + 2) * mp.w_jacobian i 1;
      (a.1 + d * mp.w_x (zi * (nc : ℤ) + (i : ℤ)) * mp.heights i,
       a.2 + mp.w_x (zi * (nc : ℤ) + (i : ℤ)) * mp.heights i))
    (0, 0);
  let F1 := updAtN mp.fit_data 0
    { fd0 with working_peak := mFitUpdateParam fd0.working_peak (xa.1 / xa.2) XCENTER };
  let ya := (List.range nc).foldl
    (fun (a : ℚ × ℚ) i =>
      let d := mp.xt_Nto0 (i * 3 + 1) * mp.w_jacobian i 2
        + mp.xt_Nto0 (i * 3 + 2) * mp.w_jacobian i 1;
      (a.1 + d * mp.w_y (zi * (nc : ℤ) + (i : ℤ)) * mp.heights i,
       a.2 + mp.w_y (zi * (nc : ℤ) + (i : ℤ)) * mp.heights i))
    (0, 0);
  let F2 := updAtN F1 0
    { F1 0 with working_peak := mFitUpdateParam (F1 0).working_peak (ya.1 / ya.2) YCENTER };
  let p0 := (F2 0).working_peak.params;
  let F3 := chanUpd
    (fun i cd =>
      let tx := mp.yt_0toN (i * 3) + mp.yt_0toN (i * 3 + 1) * (p0 YCENTER + yoff)
        + mp.yt_0toN (i * 3 + 2) * (p0 XCENTER + xoff);
      let ty := mp.xt_0toN (i * 3) + mp.xt_0toN (i * 3 + 1) * (p0 YCENTER + yoff)
        + mp.xt_0toN (i * 3 + 2) * (p0 XCENTER + xoff);
      { cd with working_peak := { cd.working_peak with
        params := updAtN (updAtN cd.working_peak.params XCENTER (tx - xoff))
          YCENTER (ty - yoff) } })
    1 (nc - 1) F2;
  let F4 := chanUpd
    (fun _ cd => { cd with working_peak := mpHyst cd.working_peak })
    0 nc F3;
  let za := (List.range nc).foldl
    (fun (a : ℚ × ℚ) i =>
      (a.1 + mp.w_jacobian i 3 * mp.w_z (zi * (nc : ℤ) + (i : ℤ)) * mp.heights i,
       a.2 + mp.w_z (zi * (nc : ℤ) + (i : ℤ)) * mp.heights i))
    (0, 0);
  let zd := za.1 / za.2;
  let F5 := chanUpd
    (fun _ cd => mpZRange { cd with working_peak := mFitUpdateParam cd.working_peak zd ZCENTER })
    0 nc F4;
  let F6 := chanUpd
    (fun i cd => { cd with working_peak := mFitUpdateParam cd.working_peak (mp.w_jacobian i 4) BACKGROUND })
    0 nc F5;
  { mp with fit_data := F6 }

/-- Fixed-relative-heights update (mp_fit.c, `mpUpdateFixed`,
lines 1176-1219): the HEIGHT delta is the w_h-weighted average of the
per-channel HEIGHT components, committed to channel 0 and copied to every
other channel, followed by `mpUpdate`. -/
def mpUpdateFixed (mp : MpFit) : MpFit :=
  let nc := mp.n_channels;
  let fd0 := mp.fit_data 0;
  let zi0 := cInt (mp.w_z_scale * (fd0.working_peak.params ZCENTER - mp.w_z_offset));
  let zi1 := if zi0 < 0 then 0 else zi0;
  let zi := if zi1 ≥ mp.n_weights then mp.n_weights - 1 else zi1;
  let ha := (List.range nc).foldl
    (fun (a : ℚ × ℚ) i =>
      (a.1 + mp.w_jacobian i 0 * mp.w_h (zi * (nc : ℤ) + (i : ℤ)),
       a.2 + mp.w_h (zi * (nc : ℤ) + (i : ℤ))))
    (0, 0);
  let F1 := updAtN mp.fit_data 0
    { fd0 with working_peak := mFitUpdateParam fd0.working_peak (ha.1 / ha.2) HEIGHT };
  let h0 := (F1 0).working_peak.params HEIGHT;
  let F2 := chanUpd
    (fun _ cd => { cd with working_peak := { cd.working_peak with
      params := updAtN cd.working_peak.params HEIGHT h0 } })
    1 (nc - 1) F1;
  mpUpdate { mp with fit_data := F2 }

/-- Independent-heights update (mp_fit.c, `mpUpdateIndependent`,
lines 1237-1256): every channel applies its own HEIGHT delta, heights are
floored at 0.01, and the heights cache is refreshed, followed by
`mpUpdate`. -/
def mpUpdateIndependent (mp : MpFit) : MpFit :=
  let nc := mp.n_channels;
  let z := chanUpd2
    (fun i cd _ =>
      let wp1 := mFitUpdateParam cd.working_peak (mp.w_jacobian i 0) HEIGHT;
      let wp2 := if wp1.params HEIGHT < 1/100 then
          { wp1 with params := updAtN wp1.params HEIGHT (1/100) } else wp1;
      ({ cd with working_peak := wp2 }, wp2.params HEIGHT))
    0 nc (mp.fit_data, mp.heights);
  mpUpdate { mp with fit_data := z.1, heights := z.2 }

/-- Dispatch of `fn_update` as configured by `mpInitialize`
(mp_fit.c, lines 211-216). -/
def mpFnUpdate (mp : MpFit) : MpFit :=
  if mp.independent_heights ≠ 0 then mpUpdateIndependent mp else mpUpdateFixed mp

/-- Working-peak reset (mp_fit.c, `mpResetWorkingPeaks`, lines 910-929):
for every channel the working peak is overwritten with a copy of the
committed peak at `index` (`fn_copy_peak`, modelled from the spec as a
full record copy), except that the previous `added` flag is kept and the
previous `lambda` is scaled by LAMBDAUP; the status is then forced to
ERROR. -/
def mpResetWorkingPeaks (mp : MpFit) (index : ℕ) : MpFit :=
  let F1 := chanUpd
    (fun _ cd =>
      let tmp_added := cd.working_peak.added;
      let tmp_lambda := cd.working_peak.lambda;
      let wp := { cd.fit index with
        added := tmp_added, lambda := tmp_lambda * LAMBDAUP, status := ERROR };
      { cd with working_peak := wp })
    0 mp.n_channels mp.fit_data;
  { mp with fit_data := F1 }

/-- Oracle of external per-channel call outcomes inside the `mpIterateLM`
retry loop, indexed by retry iteration `j` and channel `k`: whether
`mFitSolve` failed, whether `fn_check` failed (C convention: nonzero
return), whether `mFitCalcErr` failed, and the recomputed error value it
stored.  These calls live in multi_fit.c and the per-model fitters, which
are not in src/ and are modelled from the spec as oracles. -/
structure LMOracle where
  solveFail : ℕ → ℕ → Bool
  checkFail : ℕ → ℕ → Bool
  errFail : ℕ → ℕ → Bool
  errVal : ℕ → ℕ → ℚ

/-- Error accumulation after re-adding (mp_fit.c, `mpIterateLM`,
lines 484-495): `current_error` starts at 0 and a channel's recomputed
error is accumulated only inside the `mFitCalcErr` failure branch, which
also sets `is_bad`.  Returns `(current_error, is_bad)`. -/
def lmStep6 (nc : ℕ) (fail : ℕ → Bool) (err : ℕ → ℚ) : ℚ × Bool :=
  (List.range nc).foldl
    (fun (a : ℚ × Bool) k => if fail k then (a.1 + err k, true) else a)
    (0, false)

/-- Outcome of the accept / reject decision of `mpIterateLM`. -/
inductive LMDecision where
  | conv : LMDecision
  | retry : LMDecision
  | commit : LMDecision

/-- Accept / reject decision (mp_fit.c, `mpIterateLM`, lines 514-565): if
`current > starting`, converge when the relative increase is below the
tolerance and otherwise retry; if `current <= starting`, converge when the
relative decrease is below the tolerance and otherwise commit with a
smaller lambda. -/
def lmStep7 (tol current starting : ℚ) : LMDecision :=
  if current > starting then
    if (current - starting) / starting < tol then LMDecision.conv
    else LMDecision.retry
  else
    if (starting - current) / starting < tol then LMDecision.conv
    else LMDecision.commit

/-- Solver pass of the retry loop (mp_fit.c, `mpIterateLM`, step 2,
lines 412-444): each channel's iteration counter is incremented and its
damped system solved; on the first `mFitSolve` failure the channel's
`n_dposv` is incremented and the loop exits with the failure flag set. -/
def solveFold (orc : LMOracle) (j : ℕ) (nc : ℕ) (F : ℕ → MpFitData) :
    (ℕ → MpFitData) × Bool :=
  (List.range nc).foldl
    (fun (a : (ℕ → MpFitData) × Bool) k =>
      if a.2 then a
      else
        let G := updAtN a.1 k { a.1 k with n_iterations := (a.1 k).n_iterations + 1 };
        if orc.solveFail j k then
          (updAtN G k { G k with n_dposv := (G k).n_dposv + 1 }, true)
        else (G, false))
    (F, false)

/-- Retry loop of `mpIterateLM` for one emitter (mp_fit.c, lines 395-566):
reset the working statuses to RUNNING, solve each channel's damped system,
and on failure scale every lambda up and retry; otherwise run the
coordinated update, the per-channel checks, the re-add (tracked through
the `added` bits and the `n_add` counter), the error recomputation, and
the accept / reject decision.  Returns the final state and `n_add`, or
`none` when the fuel runs out (the C loop is unbounded and exits only
through its two `break` statements). -/
def lmLoop (orc : LMOracle) (index : ℕ) (starting_error : ℚ) :
    ℕ → ℕ → MpFit → ℤ → Option (MpFit × ℤ)
  | 0, _, _, _ => none
  | fuel + 1, j, mp, n_add =>
    let nc := mp.n_channels;
    let F1 := chanUpd
      (fun _ cd => { cd with working_peak := { cd.working_peak with status := RUNNING } })
      0 nc mp.fit_data;
    let sres := solveFold orc j nc F1;
    if sres.2 then
      let F2 := chanUpd
        (fun _ cd =>
          let lamUp := cd.working_peak.lambda * LAMBDAUP;
          { cd with working_peak := { cd.working_peak with status := ERROR, lambda := lamUp } })
        0 nc sres.1;
      lmLoop orc index starting_error fuel (j + 1) { mp with fit_data := F2 } n_add
    else
      let mp3 := mpFnUpdate { mp with fit_data := sres.1 };
      if (List.range mp3.n_channels).any (fun k => orc.checkFail j k) then
        lmLoop orc index starting_error fuel (j + 1) (mpResetWorkingPeaks mp3 index) n_add
      else
        let F3 := chanUpd
          (fun _ cd => { cd with working_peak := { cd.working_peak with added := 1 } })
          0 mp3.n_channels mp3.fit_data;
        let n_add2 := n_add + (mp3.n_channels : ℤ);
        let F4 := chanUpd
          (fun k cd =>
            let eo := cd.working_peak.error;
            { cd with working_peak :=
              { cd.working_peak with error_old := eo, error := orc.errVal j k } })
          0 mp3.n_channels F3;
        let mp4 := { mp3 with fit_data := F4 };
        let cur := lmStep6 mp4.n_channels (fun k => orc.errFail j k) (fun k => orc.errVal j k);
        if cur.2 then
          let F5 := chanUpd
            (fun _ cd => { cd with working_peak := { cd.working_peak with added := 0 } })
            0 mp4.n_channels mp4.fit_data;
          let n_add3 := n_add2 - (mp4.n_channels : ℤ);
          lmLoop orc index starting_error fuel (j + 1)
            (mpResetWorkingPeaks { mp4 with fit_data := F5 } index) n_add3
        else
          match lmStep7 mp4.tolerance cur.1 starting_error with
          | LMDecision.conv =>
            let F6 := chanUpd
              (fun _ cd => { cd with working_peak := { cd.working_peak with status := CONVERGED } })
              0 mp4.n_channels mp4.fit_data;
            some ({ mp4 with fit_data := F6 }, n_add2)
          | LMDecision.retry =>
            let F7 := chanUpd
              (fun _ cd =>
                let wp := { cd.working_peak with added := 0 };
                { cd with n_non_decr := cd.n_non_decr + 1, working_peak := wp })
              0 mp4.n_channels mp4.fit_data;
            let n_add4 := n_add2 - (mp4.n_channels : ℤ);
            lmLoop orc index starting_error fuel (j + 1)
              (mpResetWorkingPeaks { mp4 with fit_data := F7 } index) n_add4
          | LMDecision.commit =>
            let F8 := chanUpd
              (fun _ cd => { cd with working_peak :=
                { cd.working_peak with lambda := cd.working_peak.lambda * LAMBDADOWN } })
              0 mp4.n_channels mp4.fit_data;
            some ({ mp4 with fit_data := F8 }, n_add2)

/-- Per-emitter processing of `mpIterateLM` (mp_fit.c, lines 353-586) for
an emitter whose channel-0 status is RUNNING: copy every channel's
committed peak into its working slot, accumulate the starting error
(`startErr` gives the per-channel `mFitCalcErr` values), subtract every
channel while decrementing `n_add` from its initial `n_channels`, run the
retry loop, and finally copy the working peaks back with channel 0's
working status (`mpCopyFromWorking`, lines 162-172). -/
def mpIterateLMOne (mp : MpFit) (orc : LMOracle) (startErr : ℕ → ℚ)
    (index : ℕ) (fuel : ℕ) : Option (MpFit × ℤ) :=
  let nc := mp.n_channels;
  let F0 := chanUpd
    (fun k cd =>
      let wp0 := cd.fit index;
      let wp1 := { wp0 with error_old := wp0.error, error := startErr k };
      { cd with working_peak := { wp1 with added := 0 } })
    0 nc mp.fit_data;
  let starting_error := (List.range nc).foldl (fun (a : ℚ) k => a + startErr k) 0;
  let n_add1 := (nc : ℤ) - (nc : ℤ);
  match lmLoop orc index starting_error fuel 1 { mp with fit_data := F0 } n_add1 with
  | none => none
  | some r =>
    let st := ((r.1.fit_data 0).working_peak).status;
    let F1 := chanUpd
      (fun _ cd =>
        let wp := { cd.working_peak with status := st };
        { cd with working_peak := wp, fit := updAtN cd.fit index wp })
      0 r.1.n_channels r.1.fit_data;
    some ({ r.1 with fit_data := F1 }, r.2)

/-- Peak-parameter kind tag of `mpNewPeaks` (the C code branches on string
comparison against "finder" and "testing"; everything else takes the
5-wide branch). -/
inductive PType where
  | finder : PType
  | testing : PType
  | hdf5 : PType

/-- Multi-plane new-peaks operation (mp_fit.c, `mpNewPeaks`,
lines 766-901): candidate positions of channels above 0 are mapped through
the forward affine transform; each channel's (mapped) parameter block is
handed to the per-channel `fn_newpeaks` capability `fnNew` (which lives in
the per-model fitters, not in src/, and is modelled from the spec as an
appending operation via the hypotheses of the theorems below); in
fixed-heights mode the new peaks' heights are averaged over the index
range `[start, stop)`; finally ERROR status is synchronized over the new
range and `nfit` becomes `stop`.  `errNP channel index` supplies the
`mFitCalcErr` values of the height correction; residual add / subtract is
tracked through the `added` bits. -/
def mpNewPeaks (mp : MpFit) (fnNew : MpFitData → (ℕ → ℚ) → ℕ → MpFitData)
    (errNP : ℕ → ℕ → ℚ) (peak_params : ℕ → ℚ) (p_type : PType)
    (n_peaks : ℕ) : MpFit :=
  let nc := mp.n_channels;
  let start := mp.nfit;
  let stop := mp.nfit + n_peaks;
  let isFinder := match p_type with
    | PType.finder => true
    | PType.testing => true
    | PType.hdf5 => false;
  let wid := if isFinder then 3 else 5;
  let F1 := chanUpd
    (fun i cd =>
      if i = 0 then fnNew cd peak_params n_peaks
      else
        let mapped : ℕ → ℚ := fun idx =>
          let jj := idx / wid;
          let r := idx % wid;
          let tx := peak_params (wid * jj);
          let ty := peak_params (wid * jj + 1);
          if r = 0 then
            mp.yt_0toN (i * 3) + ty * mp.yt_0toN (i * 3 + 1) + tx * mp.yt_0toN (i * 3 + 2)
          else if r = 1 then
            mp.xt_0toN (i * 3) + ty * mp.xt_0toN (i * 3 + 1) + tx * mp.xt_0toN (i * 3 + 2)
          else peak_params (wid * jj + r);
        fnNew cd mapped n_peaks)
    0 nc mp.fit_data;
  let F2 :=
    if isFinder = true ∧ mp.independent_heights = 0 then
      (List.range' start n_peaks).foldl
        (fun (F : ℕ → MpFitData) i =>
          let Fa := chanUpd (fun _ cd => { cd with working_peak := cd.fit i }) 0 nc F;
          let hsum := (List.range nc).foldl
            (fun (a : ℚ) j => a + (Fa j).working_peak.params HEIGHT) 0;
          let havg := hsum / (nc : ℚ);
          let Fb := chanUpd
            (fun _ cd =>
              if cd.working_peak.status ≠ ERROR then
                { cd with working_peak := { cd.working_peak with added := 0 } }
              else cd)
            0 nc Fa;
          chanUpd
            (fun j cd =>
              let wp1 := { cd.working_peak with
                params := updAtN cd.working_peak.params HEIGHT havg };
              let wp2 := if wp1.status ≠ ERROR then
                  { wp1 with added := 1, error_old := wp1.error, error := errNP j i }
                else wp1;
              { cd with working_peak := wp2, fit := updAtN cd.fit i wp2 })
            0 nc Fb)
        F1
    else F1;
  let F3 := (List.range' start n_peaks).foldl
    (fun (F : ℕ → MpFitData) i =>
      if (List.range nc).any (fun j => if ((F j).fit i).status = ERROR then true else false) then
        chanUpd
          (fun _ cd =>
            let cd1 := if (cd.fit i).status ≠ ERROR then
                { cd with working_peak := { cd.fit i with added := 0 } }
              else cd;
            { cd1 with fit := updAtN cd1.fit i { cd1.fit i with status := ERROR } })
          0 nc F
      else F)
    F2;
  { mp with fit_data := F3, nfit := stop }

/-- Width-versus-z polynomial exactly as claim C3 states it:
`w(z) = w0 * (1 + zp^2 + A*zp^3 + B*zp^4)^2` with `zp = (z - c) / d`. -/
def specWidthPoly (w0 c d A B z : ℚ) : ℚ :=
  let zp := (z - c) / d;
  w0 * (1 + zp ^ 2 + A * zp ^ 3 + B * zp ^ 4) ^ 2

/-- Concrete math environment for the concrete evaluations below: `sqrt` is
exact at the only argument reached (`sqrt(1/100) = 1/10`), `log` is exact
at 1 (`log 1 = 0`), and `exp` is a placeholder whose value only enters the
residual sums (the evaluated conclusions below hold for any positive
exponential values). -/
def cenv0 : CEnv :=
  { exp := fun _ => 1,
    sqrt := fun q => if q = 1/100 then 1/10 else 0,
    log := fun _ => 0 }

/-- First-row minor of a square matrix given as a function: drop row 0 and
column `j`. -/
def minorM (M : ℕ → ℕ → ℚ) (j : ℕ) : ℕ → ℕ → ℚ :=
  fun r c => M (r + 1) (if c < j then c else c + 1)

/-- Determinant of the leading `k x k` block by Laplace expansion along the
first row. -/
def detN : ℕ → (ℕ → ℕ → ℚ) → ℚ
  | 0, _ => 1
  | k + 1, M =>
    (List.range (k + 1)).foldl
      (fun acc j =>
        acc + (if j % 2 = 0 then 1 else -1) * M 0 j * detN k (minorM M j))
      0

/-- Entry `(i, j)` of the symmetric completion of a flat `n x n` matrix whose
upper triangle is stored at `i * n + j` for `i <= j` (the layout the update
loops fill). -/
def symAt (n : ℕ) (a : ℕ → ℚ) (i j : ℕ) : ℚ :=
  if i ≤ j then a (i * n + j) else a (j * n + i)

/-- Sylvester's criterion on the symmetric completion: every leading
principal minor is positive, i.e. the matrix is symmetric positive
definite. -/
def leadMinorsPos (n : ℕ) (a : ℕ → ℚ) : Bool :=
  (List.range n).all (fun k => decide (0 < detN (k + 1) (symAt n a)))

/-- Concrete solver oracle consistent with the `dposv_` contract of spec
section 4.1 at every call it answers: it returns the zero vector exactly
when the right hand side is zero AND the symmetric completion of the
matrix passes Sylvester's criterion — then the matrix is symmetric
positive definite, `A x = b = 0` has the unique solution `x = 0`, and
`dposv_` succeeds with exactly that solution.  Every other call (in
particular any singular or non-SPD matrix, where `dposv_` returns a
nonzero status) is reported as a failure. -/
def solPD : Solver :=
  fun n a b =>
    if leadMinorsPos n a ∧ (List.range n).all (fun i => b i == 0) then
      some (fun _ => 0)
    else none

/-- Zero delta vector. -/
def deltaZero : ℕ → ℚ := fun _ => 0

/-- Concrete peak for the margin counterexample: anchor exactly at
`(MARGIN, 20)` inside a 40x40 image, all parameters valid. -/
def peakC1 : PeakData :=
  { offset := 0, status := RUNNING, wx := 2, wy := 2, xc := 10, yc := 20,
    error := 0, error_old := 0,
    sign := fun _ => 0, clamp := fun _ => 1,
    params := fun i =>
      if i = HEIGHT then 5 else if i = XCENTER then 21/2
      else if i = YCENTER then 41/2 else if i = XWIDTH then 2
      else if i = YWIDTH then 2 else 0,
    wx_term := 0, wy_term := 0,
    xt := fun _ => 0, ext := fun _ => 1, yt := fun _ => 0, eyt := fun _ => 1 }

/-- Concrete base fit state: 40x40 image, uniform data 100, unit
background coverage, zero sCMOS term, zero tolerance. -/
def fdBase : FitData :=
  { nfit := 0, image_size_x := 40, image_size_y := 40,
    n_dposv := 0, n_margin := 0, n_neg_fi := 0, n_neg_height := 0,
    n_neg_width := 0, tolerance := 0, min_z := -1, max_z := 1,
    bg_counts := fun _ => 1, bg_data := fun _ => 0, f_data := fun _ => 100,
    scmos_term := fun _ => 0, x_data := fun _ => 100,
    clamp_start := fun _ => 1, fit := [], zfit := false,
    wx_z_params := fun _ => 0, wy_z_params := fun _ => 0 }

/-- Width-versus-z coefficients `[w0, c, d, A, B] = [1, 0, 1, 0, 0]` for
the z-width counterexample. -/
def wxvC3 : ℕ → ℚ := fun i => if i = 0 then 1 else if i = 2 then 1 else 0

/-- Concrete peak at `ZCENTER = 1` for the z-width counterexample. -/
def pC3 : PeakData := { peakC1 with params := updAtN peakC1.params ZCENTER 1 }

/-- Concrete RUNNING peak with a large `XWIDTH` (a narrow gaussian of
width 0.1 pixels gives `XWIDTH = 50`), anchored at the image center with
a 3x3 bounding box.  Its residual data satisfies `x_data = fi` on the
box, so the Jacobian vanishes and the zero update is the true solution. -/
def peakC4 : PeakData :=
  { offset := 820, status := RUNNING, wx := 1, wy := 1, xc := 20, yc := 20,
    error := 7, error_old := 7,
    sign := fun _ => 0, clamp := fun _ => 1,
    params := fun i =>
      if i = HEIGHT then 5 else if i = XCENTER then 41/2
      else if i = YCENTER then 41/2 else if i = XWIDTH then 50
      else if i = YWIDTH then 50 else 0,
    wx_term := 0, wy_term := 0,
    xt := fun _ => 0, ext := fun _ => 1, yt := fun _ => 0, eyt := fun _ => 1 }

/-- Concrete fit state holding `peakC4`. -/
def fdC4 : FitData := { fdBase with nfit := 1, fit := [peakC4] }

/-- Math environment for the width counterexample.  Every call the trace
reaches is exact or plausible: `sqrt(1/100) = 1/10` and `log 1 = 0` are
the exact real values, and `exp` is probed only at `-225/2` and `-25/2`,
where the positive, decreasing stand-ins `1/16` and `1/2` replace the
true exponentials. -/
def cenv4 : CEnv :=
  { exp := fun q => if q = -225/2 then 1/16 else if q = -25/2 then 1/2 else 1,
    sqrt := fun q => if q = 1/100 then 1/10 else 0,
    log := fun _ => 0 }

/-- Image for the width counterexample: over the peak's 3x3 box the data
equals the model values `HEIGHT * eyt * ext` that the residual holds after
`addPeak` (a perfect fit, so the Jacobian vanishes while the Hessian stays
positive definite); 1 elsewhere. -/
def xImgC4 : ℤ → ℚ := fun m =>
  if m = 779 then 5/256
  else if m = 780 then 5/32
  else if m = 781 then 5/32
  else if m = 819 then 5/32
  else if m = 820 then 5/4
  else if m = 821 then 5/4
  else if m = 859 then 5/32
  else if m = 860 then 5/4
  else if m = 861 then 5/4
  else 1

/-- Empty residual store carrying the image `xImgC4`. -/
def fdC4blank : FitData :=
  { fdBase with
    bg_counts := fun _ => 0
    bg_data := fun _ => 0
    f_data := fun _ => 0
    x_data := xImgC4 }

/-- The width-counterexample state: `peakC4` genuinely added to the empty
residual, so its exponential caches and the residual arrays are exactly
what `addPeak` computes. -/
def fdC4g : FitData :=
  let r := addPeak cenv4 fdC4blank peakC4;
  { r.1 with nfit := 1, fit := [r.2] }

/-- Concrete prior fit state with two stored peaks, for the new-peaks
counterexample. -/
def fdC5 : FitData := { fdBase with nfit := 2, fit := [peakC1, peakC1] }

/-- Concrete 9-wide peak record for `newPeaks`: one RUNNING candidate at
`(20.5, 20.5)` with height 5, width 1.5 and background 1. -/
def pdataC5 : ℕ → ℚ := fun j =>
  if j = HEIGHT then 5 else if j = XCENTER then 41/2
  else if j = YCENTER then 41/2 else if j = XWIDTH then 3/2
  else if j = YWIDTH then 3/2 else if j = BACKGROUND then 1 else 0

/-- Concrete multi-plane working peak: anchor `(5, 5)` with
`XCENTER = 5.7` and `YCENTER = 5.5`. -/
def pkC2 : MpPeak :=
  { status := RUNNING, xi := 5, yi := 5, index := 0, added := 1, lambda := 1,
    error := 0, error_old := 0,
    params := fun i =>
      if i = XCENTER then 57/10 else if i = YCENTER then 11/2
      else if i = HEIGHT then 3 else 0 }

/-- Concrete multi-plane channel state holding `pkC2`. -/
def cdC2 : MpFitData :=
  { nfit := 1, working_peak := pkC2, fit := fun _ => pkC2,
    n_dposv := 0, n_iterations := 0, n_non_decr := 0,
    min_z := -100, max_z := 100, xoff := 0, yoff := 0 }

/-- Concrete one-channel multi-plane coordinator state with identity-like
weights and zero solved updates. -/
def mpC2 : MpFit :=
  { im_size_x := 40, im_size_y := 40, independent_heights := 0,
    n_channels := 1, n_weights := 1, nfit := 1,
    w_z_offset := 0, w_z_scale := 0, tolerance := 1/100,
    zmin := -100, zmax := 100,
    clamp_start := fun _ => 1,
    xt_0toN := fun _ => 0, yt_0toN := fun _ => 0,
    xt_Nto0 := fun _ => 0, yt_Nto0 := fun _ => 0,
    w_bg := fun _ => 1, w_h := fun _ => 1, w_x := fun _ => 1,
    w_y := fun _ => 1, w_z := fun _ => 1,
    heights := fun _ => 1,
    w_jacobian := fun _ _ => 0,
    fit_data := fun _ => cdC2 }

/-- Oracle for the error-decision failing input: every external call
succeeds and the recomputed per-channel error is 20. -/
def orcC7 : LMOracle :=
  { solveFail := fun _ _ => false, checkFail := fun _ _ => false,
    errFail := fun _ _ => false, errVal := fun _ _ => 20 }

/-- Modelled from the spec: trivial per-channel `fn_newpeaks` used as a
witness instantiation — it appends `n` slots by advancing `nfit` and
leaving all existing peaks in place (spec section 4.3: `newpeaks` appends
new peaks). -/
def fnNew0 : MpFitData → (ℕ → ℚ) → ℕ → MpFitData :=
  fun cd _ n => { cd with nfit := cd.nfit + n }

/-- Zero error oracle for the new-peaks witness. -/
def errNP0 : ℕ → ℕ → ℚ := fun _ _ => 0

/-- Zero candidate block for the new-peaks witness. -/
def ppC5 : ℕ → ℚ := fun _ => 0

/-- Bounding-box bounds as the code actually maintains them: the box
half-widths stay in `[0, MARGIN]` (the spec's stated lower bound 1 is not
enforced by `calcWidth`). -/
def widthOK (p : PeakData) : Prop :=
  0 ≤ p.wx ∧ p.wx ≤ MARGIN ∧ 0 ≤ p.wy ∧ p.wy ≤ MARGIN

/-- Amended running-peak invariant: a peak still RUNNING after a pass has
nonnegative HEIGHT (the code flags only strictly negative heights) and box
half-widths in `[0, MARGIN]`. -/
def peakOK (p : PeakData) : Prop :=
  p.status = RUNNING →
    (0 ≤ p.params HEIGHT ∧ 0 ≤ p.wx ∧ p.wx ≤ MARGIN ∧ 0 ≤ p.wy ∧ p.wy ≤ MARGIN)

/-- The z-dependent weight bin exactly as the spec words it:
`z_index = clamp(round_down(w_z_scale * (Z - w_z_offset)), 0, n_weights - 1)`
with Z the channel-0 working ZCENTER (spec section 4.6). -/
def specZIndex (mp : MpFit) : ℤ :=
  max 0 (min ⌊mp.w_z_scale * ((mp.fit_data 0).working_peak.params ZCENTER - mp.w_z_offset)⌋
    (mp.n_weights - 1))

theorem updAtN_apply {α : Type} (f : ℕ → α) (m : ℕ) (v : α) (c : ℕ) :
    updAtN f m v c = if c = m then v else f c := rfl

theorem updAt_apply {α : Type} (f : ℤ → α) (m : ℤ) (v : α) (c : ℤ) :
    updAt f m v c = if c = m then v else f c := rfl

/-- Pointwise value of a channel loop: the entry at `c` is rewritten once
exactly when `c` lies in the index range. -/
theorem chanUpd_apply {α : Type} (g : ℕ → α → α) :
    ∀ (n s : ℕ) (F : ℕ → α) (c : ℕ),
    chanUpd g s n F c = if s ≤ c ∧ c < s + n then g c (F c) else F c := by
  intro n
  induction n with
  | zero =>
    intro s F c
    have h0 : ¬(s ≤ c ∧ c < s + 0) := by omega
    rw [if_neg h0]
    rfl
  | succ n ih =>
    intro s F c
    have hr : List.range' s (n + 1) = s :: List.range' (s + 1) n := by
      simp [List.range'_succ]
    simp only [chanUpd] at ih ⊢
    rw [hr, List.foldl_cons, ih]
    by_cases hc : c = s
    · have h1 : ¬(s + 1 ≤ c ∧ c < s + 1 + n) := by omega
      have h2 : s ≤ c ∧ c < s + (n + 1) := by omega
      simp [h1, h2, updAtN_apply, hc]
    · have h3 : (s + 1 ≤ c ∧ c < s + 1 + n) ↔ (s ≤ c ∧ c < s + (n + 1)) := by omega
      simp [updAtN_apply, hc, h3]

/-- Projection preserved by a channel loop whenever the step preserves it. -/
theorem chanUpd_proj {α β : Type} (g : ℕ → α → α) (proj : α → β)
    (h : ∀ i x, proj (g i x) = proj x) (s n : ℕ) (F : ℕ → α) (c : ℕ) :
    proj (chanUpd g s n F c) = proj (F c) := by
  rw [chanUpd_apply]
  split
  · exact h c (F c)
  · rfl

/-- Pointwise value of a two-array channel loop. -/
theorem chanUpd2_apply {α β : Type} (g : ℕ → α → β → α × β) :
    ∀ (n s : ℕ) (FH : (ℕ → α) × (ℕ → β)) (c : ℕ),
    (chanUpd2 g s n FH).1 c
      = (if s ≤ c ∧ c < s + n then (g c (FH.1 c) (FH.2 c)).1 else FH.1 c) ∧
    (chanUpd2 g s n FH).2 c
      = (if s ≤ c ∧ c < s + n then (g c (FH.1 c) (FH.2 c)).2 else FH.2 c) := by
  intro n
  induction n with
  | zero =>
    intro s FH c
    have h0 : ¬(s ≤ c ∧ c < s + 0) := by omega
    rw [if_neg h0, if_neg h0]
    exact ⟨rfl, rfl⟩
  | succ n ih =>
    intro s FH c
    have hr : List.range' s (n + 1) = s :: List.range' (s + 1) n := by
      simp [List.range'_succ]
    simp only [chanUpd2] at ih ⊢
    rw [hr, List.foldl_cons]
    rcases ih (s + 1) (updAtN FH.1 s (g s (FH.1 s) (FH.2 s)).1,
      updAtN FH.2 s (g s (FH.1 s) (FH.2 s)).2) c with ⟨ih1, ih2⟩
    rw [ih1, ih2]
    by_cases hc : c = s
    · have h1 : ¬(s + 1 ≤ c ∧ c < s + 1 + n) := by omega
      have h2 : s ≤ c ∧ c < s + (n + 1) := by omega
      simp [h1, h2, updAtN_apply, hc]
    · have h3 : (s + 1 ≤ c ∧ c < s + 1 + n) ↔ (s ≤ c ∧ c < s + (n + 1)) := by omega
      simp [updAtN_apply, hc, h3]

/-- Value of a pair-accumulating fold over `List.range` as a pair of sums. -/
theorem range_pairFold (g h : ℕ → ℚ) :
    ∀ (n : ℕ) (a b : ℚ),
    (List.range n).foldl (fun (x : ℚ × ℚ) i => (x.1 + g i, x.2 + h i)) (a, b)
      = (a + ∑ i ∈ Finset.range n, g i, b + ∑ i ∈ Finset.range n, h i) := by
  intro n
  induction n with
  | zero => intro a b; simp
  | succ n ih =>
    intro a b
    rw [List.range_succ, List.foldl_append, ih]
    simp [Finset.sum_range_succ]
    constructor <;> ring

/-- Value of a sum-accumulating fold over `List.range`. -/
theorem range_addFold (g : ℕ → ℚ) :
    ∀ (n : ℕ) (a : ℚ),
    (List.range n).foldl (fun (x : ℚ) i => x + g i) a
      = a + ∑ i ∈ Finset.range n, g i := by
  intro n
  induction n with
  | zero => intro a; simp
  | succ n ih =>
    intro a
    rw [List.range_succ, List.foldl_append, ih]
    simp [Finset.sum_range_succ]
    ring

/-- Value at one offset of an accumulate-into-array loop. -/
theorem foldl_add_apply {β α : Type} [AddCommGroup α] (idx : β → ℤ) (w : β → α) :
    ∀ (l : List β) (f : ℤ → α) (m : ℤ),
    (l.foldl (fun g b => updAt g (idx b) (g (idx b) + w b)) f) m
      = f m + (l.map (fun b => if idx b = m then w b else 0)).sum := by
  intro l
  induction l with
  | nil => intro f m; simp
  | cons a t ih =>
    intro f m
    rw [List.foldl_cons, ih, List.map_cons, List.sum_cons]
    by_cases h : idx a = m
    · rw [h]
      have hv : updAt f m (f m + w a) m = f m + w a := by simp [updAt_apply]
      rw [hv, if_pos rfl]
      abel
    · have h' : ¬(m = idx a) := fun hh => h hh.symm
      have hv : updAt f (idx a) (f (idx a) + w a) m = f m := by simp [updAt_apply, h']
      rw [hv, if_neg h]
      abel

/-- Value at one offset of a subtract-from-array loop. -/
theorem foldl_sub_apply {β α : Type} [AddCommGroup α] (idx : β → ℤ) (w : β → α) :
    ∀ (l : List β) (f : ℤ → α) (m : ℤ),
    (l.foldl (fun g b => updAt g (idx b) (g (idx b) - w b)) f) m
      = f m - (l.map (fun b => if idx b = m then w b else 0)).sum := by
  intro l
  induction l with
  | nil => intro f m; simp
  | cons a t ih =>
    intro f m
    rw [List.foldl_cons, ih, List.map_cons, List.sum_cons]
    by_cases h : idx a = m
    · rw [h]
      have hv : updAt f m (f m - w a) m = f m - w a := by simp [updAt_apply]
      rw [hv, if_pos rfl]
      abel
    · have h' : ¬(m = idx a) := fun hh => h hh.symm
      have hv : updAt f (idx a) (f (idx a) - w a) m = f m := by simp [updAt_apply, h']
      rw [hv, if_neg h]
      abel

theorem daoHeightCheck_nmargin (fd : FitData) (p : PeakData) :
    ((daoHeightCheck fd p).1).n_margin = fd.n_margin := by
  unfold daoHeightCheck
  split <;> rfl

theorem daoWidthCheck_nmargin (fd : FitData) (p : PeakData) :
    ((daoWidthCheck fd p).1).n_margin = fd.n_margin := by
  unfold daoWidthCheck
  split <;> rfl

theorem daoHeightCheck_errStat (fd : FitData) (p : PeakData)
    (h : p.status = ERROR) : ((daoHeightCheck fd p).2).status = ERROR := by
  unfold daoHeightCheck
  split
  · rfl
  · exact h

theorem daoWidthCheck_errStat (fd : FitData) (p : PeakData)
    (h : p.status = ERROR) : ((daoWidthCheck fd p).2).status = ERROR := by
  unfold daoWidthCheck
  split
  · rfl
  · exact h

theorem daoZClamp_status (fd : FitData) (p : PeakData) :
    (daoZClamp fd p).status = p.status := by
  unfold daoZClamp
  by_cases hz : fd.zfit
  · by_cases h1 : p.params ZCENTER < fd.min_z <;> simp [hz, h1] <;> split <;> rfl
  · simp [hz]

/-- C1 (amended): in `fitDataUpdate` the margin counter is incremented and
the peak flagged ERROR exactly when the post-hysteresis anchor satisfies
`xc ≤ MARGIN`, `xc ≥ image_size_x - MARGIN - 1`, `yc ≤ MARGIN` or
`yc ≥ image_size_y - MARGIN - 1` — i.e. when it lies outside the interval
`[MARGIN + 1, image_size - MARGIN - 2]` in either coordinate.  Anchors at
the endpoints `MARGIN` and `image_size - MARGIN - 1` ARE flagged, contrary
to the claim; for every anchor strictly inside, the margin check leaves
the fit state and the peak (in particular its status) unchanged. -/
theorem C1_margin_flagging (fd : FitData) (p : PeakData) (delta : ℕ → ℚ) :
    ((fitDataUpdate fd p delta).1.n_margin = fd.n_margin + 1
      ↔ ((daoHystY (daoHystX (updateParams p delta))).xc ≤ MARGIN
        ∨ (daoHystY (daoHystX (updateParams p delta))).xc ≥ fd.image_size_x - MARGIN - 1
        ∨ (daoHystY (daoHystX (updateParams p delta))).yc ≤ MARGIN
        ∨ (daoHystY (daoHystX (updateParams p delta))).yc ≥ fd.image_size_y - MARGIN - 1))
    ∧ (((daoHystY (daoHystX (updateParams p delta))).xc ≤ MARGIN
        ∨ (daoHystY (daoHystX (updateParams p delta))).xc ≥ fd.image_size_x - MARGIN - 1
        ∨ (daoHystY (daoHystX (updateParams p delta))).yc ≤ MARGIN
        ∨ (daoHystY (daoHystX (updateParams p delta))).yc ≥ fd.image_size_y - MARGIN - 1)
      → (fitDataUpdate fd p delta).2.status = ERROR)
    ∧ (¬((daoHystY (daoHystX (updateParams p delta))).xc ≤ MARGIN
        ∨ (daoHystY (daoHystX (updateParams p delta))).xc ≥ fd.image_size_x - MARGIN - 1
        ∨ (daoHystY (daoHystX (updateParams p delta))).yc ≤ MARGIN
        ∨ (daoHystY (daoHystX (updateParams p delta))).yc ≥ fd.image_size_y - MARGIN - 1)
      → daoMarginCheck fd (daoHystY (daoHystX (updateParams p delta)))
          = (fd, daoHystY (daoHystX (updateParams p delta)))) := by
  set q := daoHystY (daoHystX (updateParams p delta)) with hqdef
  have e : fitDataUpdate fd p delta
      = ((daoWidthCheck (daoHeightCheck (daoMarginCheck fd q).1
            (daoMarginCheck fd q).2).1
            (daoHeightCheck (daoMarginCheck fd q).1 (daoMarginCheck fd q).2).2).1,
         daoZClamp
           (daoWidthCheck (daoHeightCheck (daoMarginCheck fd q).1
             (daoMarginCheck fd q).2).1
             (daoHeightCheck (daoMarginCheck fd q).1 (daoMarginCheck fd q).2).2).1
           (daoWidthCheck (daoHeightCheck (daoMarginCheck fd q).1
             (daoMarginCheck fd q).2).1
             (daoHeightCheck (daoMarginCheck fd q).1 (daoMarginCheck fd q).2).2).2) := rfl
  by_cases hout : q.xc ≤ MARGIN ∨ q.xc ≥ fd.image_size_x - MARGIN - 1 ∨
      q.yc ≤ MARGIN ∨ q.yc ≥ fd.image_size_y - MARGIN - 1
  · have hm : daoMarginCheck fd q
        = ({ fd with n_margin := fd.n_margin + 1 }, { q with status := ERROR }) := by
      unfold daoMarginCheck
      rw [if_pos hout]
    refine ⟨⟨fun _ => hout, fun _ => ?_⟩, fun _ => ?_, fun hno => absurd hout hno⟩
    · rw [e]
      simp only [hm, daoHeightCheck_nmargin, daoWidthCheck_nmargin]
    · rw [e]
      simp only [hm]
      rw [daoZClamp_status]
      exact daoWidthCheck_errStat _ _ (daoHeightCheck_errStat _ _ rfl)
  · have hm : daoMarginCheck fd q = (fd, q) := by
      unfold daoMarginCheck
      rw [if_neg hout]
    refine ⟨⟨fun hEq => ?_, fun ho => absurd ho hout⟩,
      fun ho => absurd ho hout, fun _ => hm⟩
    rw [e] at hEq
    simp only [hm, daoHeightCheck_nmargin, daoWidthCheck_nmargin] at hEq
    omega

set_option maxRecDepth 4000

/-- C1 (counterexample): a peak whose anchor is exactly at the endpoint
`(MARGIN, 20) = (10, 20)` of the claim's inclusive safe interval
`[10, 29]` in a 40x40 image is flagged ERROR with `n_margin`
incremented by `fitDataUpdate`, although the claim says anchors at the
endpoint `MARGIN` must not be flagged. -/
theorem C1_margin_cex :
    peakC1.xc = 10 ∧ MARGIN ≤ peakC1.xc
      ∧ peakC1.xc ≤ fdBase.image_size_x - MARGIN - 1
      ∧ MARGIN ≤ peakC1.yc ∧ peakC1.yc ≤ fdBase.image_size_y - MARGIN - 1
      ∧ (fitDataUpdate fdBase peakC1 deltaZero).2.status = ERROR
      ∧ (fitDataUpdate fdBase peakC1 deltaZero).1.n_margin = fdBase.n_margin + 1 :=
  of_decide_eq_true (by with_unfolding_all rfl)

theorem daoMarginCheck_anchor (fd : FitData) (p : PeakData) :
    (daoMarginCheck fd p).2.xc = p.xc ∧ (daoMarginCheck fd p).2.yc = p.yc := by
  unfold daoMarginCheck
  split <;> exact ⟨rfl, rfl⟩

theorem daoHeightCheck_anchor (fd : FitData) (p : PeakData) :
    (daoHeightCheck fd p).2.xc = p.xc ∧ (daoHeightCheck fd p).2.yc = p.yc := by
  unfold daoHeightCheck
  split <;> exact ⟨rfl, rfl⟩

theorem daoWidthCheck_anchor (fd : FitData) (p : PeakData) :
    (daoWidthCheck fd p).2.xc = p.xc ∧ (daoWidthCheck fd p).2.yc = p.yc := by
  unfold daoWidthCheck
  split <;> exact ⟨rfl, rfl⟩

theorem daoZClamp_anchor (fd : FitData) (p : PeakData) :
    (daoZClamp fd p).xc = p.xc ∧ (daoZClamp fd p).yc = p.yc := by
  unfold daoZClamp
  by_cases hz : fd.zfit
  · by_cases h1 : p.params ZCENTER < fd.min_z <;> simp [hz, h1] <;> split <;>
      exact ⟨rfl, rfl⟩
  · simp [hz]

/-- C2 (amended): the single-channel hysteresis of `fitDataUpdate` keeps
the anchor whenever `|XCENTER - xc - 0.5| ≤ HYSTERESIS` and moves it to
the truncation `(int)XCENTER` only when that quantity exceeds HYSTERESIS
(and likewise for y); the anchor produced by `fitDataUpdate` is exactly
the one produced by these two hysteresis steps.  The multi-plane
coordinator instead uses the rule of `mpHyst` (applied by `mpUpdate` to
every channel after the coordinated position update): the anchor keeps
its value whenever `|XCENTER - xi| ≤ HYSTERESIS` — without the 0.5 offset
— and otherwise moves to `round(XCENTER)`. -/
theorem C2_hysteresis_rules (fd : FitData) (p : PeakData) (delta : ℕ → ℚ)
    (pk : MpPeak) :
    ((fitDataUpdate fd p delta).2.xc = (daoHystY (daoHystX (updateParams p delta))).xc
      ∧ (fitDataUpdate fd p delta).2.yc = (daoHystY (daoHystX (updateParams p delta))).yc)
    ∧ (|p.params XCENTER - (p.xc : ℚ) - 1/2| ≤ HYSTERESIS → (daoHystX p).xc = p.xc)
    ∧ ((daoHystX p).xc ≠ p.xc
      → |p.params XCENTER - (p.xc : ℚ) - 1/2| > HYSTERESIS
        ∧ (daoHystX p).xc = cInt (p.params XCENTER))
    ∧ (|p.params YCENTER - (p.yc : ℚ) - 1/2| ≤ HYSTERESIS → (daoHystY p).yc = p.yc)
    ∧ ((daoHystY p).yc ≠ p.yc
      → |p.params YCENTER - (p.yc : ℚ) - 1/2| > HYSTERESIS
        ∧ (daoHystY p).yc = cInt (p.params YCENTER))
    ∧ (|pk.params XCENTER - (pk.xi : ℚ)| ≤ HYSTERESIS → (mpHyst pk).xi = pk.xi)
    ∧ ((mpHyst pk).xi ≠ pk.xi
      → |pk.params XCENTER - (pk.xi : ℚ)| > HYSTERESIS
        ∧ (mpHyst pk).xi = cRound (pk.params XCENTER))
    ∧ (|pk.params YCENTER - (pk.yi : ℚ)| ≤ HYSTERESIS → (mpHyst pk).yi = pk.yi)
    ∧ ((mpHyst pk).yi ≠ pk.yi
      → |pk.params YCENTER - (pk.yi : ℚ)| > HYSTERESIS
        ∧ (mpHyst pk).yi = cRound (pk.params YCENTER)) := by
  refine ⟨?_, ?_, ?_, ?_, ?_, ?_, ?_, ?_, ?_⟩
  · set q := daoHystY (daoHystX (updateParams p delta)) with hq
    have e2 : (fitDataUpdate fd p delta).2
        = daoZClamp
            (daoWidthCheck (daoHeightCheck (daoMarginCheck fd q).1
              (daoMarginCheck fd q).2).1
              (daoHeightCheck (daoMarginCheck fd q).1 (daoMarginCheck fd q).2).2).1
            (daoWidthCheck (daoHeightCheck (daoMarginCheck fd q).1
              (daoMarginCheck fd q).2).1
              (daoHeightCheck (daoMarginCheck fd q).1 (daoMarginCheck fd q).2).2).2 := rfl
    rw [e2]
    constructor
    · rw [(daoZClamp_anchor _ _).1, (daoWidthCheck_anchor _ _).1,
        (daoHeightCheck_anchor _ _).1, (daoMarginCheck_anchor _ _).1]
    · rw [(daoZClamp_anchor _ _).2, (daoWidthCheck_anchor _ _).2,
        (daoHeightCheck_anchor _ _).2, (daoMarginCheck_anchor _ _).2]
  · intro h
    unfold daoHystX
    rw [if_neg (not_lt.mpr h)]
  · intro h
    unfold daoHystX at h ⊢
    by_cases hc : |p.params XCENTER - (p.xc : ℚ) - 1/2| > HYSTERESIS
    · exact ⟨hc, by rw [if_pos hc]⟩
    · rw [if_neg hc] at h
      exact absurd rfl h
  · intro h
    unfold daoHystY
    rw [if_neg (not_lt.mpr h)]
  · intro h
    unfold daoHystY at h ⊢
    by_cases hc : |p.params YCENTER - (p.yc : ℚ) - 1/2| > HYSTERESIS
    · exact ⟨hc, by rw [if_pos hc]⟩
    · rw [if_neg hc] at h
      exact absurd rfl h
  · intro h
    have hc := not_lt.mpr h
    by_cases hy : |pk.params YCENTER - (pk.yi : ℚ)| > HYSTERESIS <;>
      simp [mpHyst, hc, hy]
  · intro h
    by_cases hc : |pk.params XCENTER - (pk.xi : ℚ)| > HYSTERESIS
    · refine ⟨hc, ?_⟩
      by_cases hy : |pk.params YCENTER - (pk.yi : ℚ)| > HYSTERESIS <;>
        simp [mpHyst, hc, hy]
    · exfalso
      apply h
      by_cases hy : |pk.params YCENTER - (pk.yi : ℚ)| > HYSTERESIS <;>
        simp [mpHyst, hc, hy]
  · intro h
    have hy := not_lt.mpr h
    by_cases hc : |pk.params XCENTER - (pk.xi : ℚ)| > HYSTERESIS <;>
      simp [mpHyst, hc, hy]
  · intro h
    by_cases hy : |pk.params YCENTER - (pk.yi : ℚ)| > HYSTERESIS
    · refine ⟨hy, ?_⟩
      by_cases hc : |pk.params XCENTER - (pk.xi : ℚ)| > HYSTERESIS <;>
        simp [mpHyst, hc, hy]
    · exfalso
      apply h
      by_cases hc : |pk.params XCENTER - (pk.xi : ℚ)| > HYSTERESIS <;>
        simp [mpHyst, hc, hy]

/-- C2 (counterexample): in the multi-plane coordinator, a channel-0
working peak with `XCENTER = 5.7` and anchor `xi = 5` satisfies
`|XCENTER - xi - 0.5| = 0.2 ≤ 0.6`, so by the claim the anchor must keep
its previous value; but `mpUpdate` (with zero solved updates, so XCENTER
is unchanged) moves the anchor to `round(5.7) = 6`.  The y anchor, with
`|YCENTER - yi| = 0.5 ≤ 0.6`, stays. -/
theorem C2_hysteresis_cex :
    |pkC2.params XCENTER - (pkC2.xi : ℚ) - 1/2| ≤ HYSTERESIS
    ∧ ((mpUpdate mpC2).fit_data 0).working_peak.params XCENTER = pkC2.params XCENTER
    ∧ pkC2.xi = 5
    ∧ ((mpUpdate mpC2).fit_data 0).working_peak.xi = 6
    ∧ ((mpUpdate mpC2).fit_data 0).working_peak.yi = 5 :=
  of_decide_eq_true (by with_unfolding_all rfl)

/-- C3 (amended): with `initializeZParameters` coefficients
`[w0, c, d, A, B]`, `calcWidthsFromZ` stores
`XWIDTH = 2 / (w0^2 * (1 + zx^2 + A*zx^3 + B*zx^4))` with
`zx = (ZCENTER - c) / d`, and symmetrically for YWIDTH — a deterministic
function of ZCENTER alone, but not the claim's width polynomial
`w(z) = w0 * (1 + zp^2 + A*zp^3 + B*zp^4)^2`. -/
theorem C3_zwidths_formula (fd : FitData) (wxv wyv : ℕ → ℚ)
    (zmin zmax : ℚ) (p : PeakData) :
    (calcWidthsFromZ (initializeZParameters fd wxv wyv zmin zmax) p).params XWIDTH
      = 2 / ((wxv 0 * wxv 0) * (1 + ((p.params ZCENTER - wxv 1) / wxv 2)^2
          + wxv 3 * ((p.params ZCENTER - wxv 1) / wxv 2)^3
          + wxv 4 * ((p.params ZCENTER - wxv 1) / wxv 2)^4))
    ∧ (calcWidthsFromZ (initializeZParameters fd wxv wyv zmin zmax) p).params YWIDTH
      = 2 / ((wyv 0 * wyv 0) * (1 + ((p.params ZCENTER - wyv 1) / wyv 2)^2
          + wyv 3 * ((p.params ZCENTER - wyv 1) / wyv 2)^3
          + wyv 4 * ((p.params ZCENTER - wyv 1) / wyv 2)^4)) := by
  constructor <;>
    simp only [calcWidthsFromZ, initializeZParameters, updAtN_apply] <;>
    norm_num [XWIDTH, YWIDTH, ZCENTER] <;>
    ring_nf

/-- C3 (counterexample): with coefficients `[w0, c, d, A, B] =
[1, 0, 1, 0, 0]` and `ZCENTER = 1`, the stored `XWIDTH` is
`2 / (1 * 2) = 1`, while the claim's polynomial gives
`w(1) = 1 * (1 + 1)^2 = 4`; the stored value equals neither `w(1)` nor
the `1 / (2 w^2)` conversion of it used by `newPeaks`. -/
theorem C3_zwidths_cex :
    (calcWidthsFromZ (initializeZParameters fdBase wxvC3 wxvC3 (-1) 1) pC3).params XWIDTH = 1
    ∧ specWidthPoly 1 0 1 0 0 1 = 4
    ∧ ((1:ℚ) ≠ 4) ∧ ((1:ℚ) ≠ 1 / (2 * 4^2)) :=
  of_decide_eq_true (by with_unfolding_all rfl)

theorem fold3_add_decomp (sx l0 : ℤ) (mag bg : ℚ) (ey ex sc : ℤ → ℚ) :
    ∀ (L : List (ℤ × ℤ)) (ar : FitData),
    ((L.foldl (fun ar jk =>
        { ar with
          f_data := updAt ar.f_data (jk.1 * sx + jk.2 + l0)
            (ar.f_data (jk.1 * sx + jk.2 + l0) + mag * ey jk.1 * ex jk.2),
          bg_counts := updAt ar.bg_counts (jk.1 * sx + jk.2 + l0)
            (ar.bg_counts (jk.1 * sx + jk.2 + l0) + 1),
          bg_data := updAt ar.bg_data (jk.1 * sx + jk.2 + l0)
            (ar.bg_data (jk.1 * sx + jk.2 + l0)
              + (bg + sc (jk.1 * sx + jk.2 + l0))) }) ar).f_data
      = L.foldl (fun g jk => updAt g (jk.1 * sx + jk.2 + l0)
          (g (jk.1 * sx + jk.2 + l0) + mag * ey jk.1 * ex jk.2)) ar.f_data)
    ∧ ((L.foldl (fun ar jk =>
        { ar with
          f_data := updAt ar.f_data (jk.1 * sx + jk.2 + l0)
            (ar.f_data (jk.1 * sx + jk.2 + l0) + mag * ey jk.1 * ex jk.2),
          bg_counts := updAt ar.bg_counts (jk.1 * sx + jk.2 + l0)
            (ar.bg_counts (jk.1 * sx + jk.2 + l0) + 1),
          bg_data := updAt ar.bg_data (jk.1 * sx + jk.2 + l0)
            (ar.bg_data (jk.1 * sx + jk.2 + l0)
              + (bg + sc (jk.1 * sx + jk.2 + l0))) }) ar).bg_counts
      = L.foldl (fun g jk => updAt g (jk.1 * sx + jk.2 + l0)
          (g (jk.1 * sx + jk.2 + l0) + 1)) ar.bg_counts)
    ∧ ((L.foldl (fun ar jk =>
        { ar with
          f_data := updAt ar.f_data (jk.1 * sx + jk.2 + l0)
            (ar.f_data (jk.1 * sx + jk.2 + l0) + mag * ey jk.1 * ex jk.2),
          bg_counts := updAt ar.bg_counts (jk.1 * sx + jk.2 + l0)
            (ar.bg_counts (jk.1 * sx + jk.2 + l0) + 1),
          bg_data := updAt ar.bg_data (jk.1 * sx + jk.2 + l0)
            (ar.bg_data (jk.1 * sx + jk.2 + l0)
              + (bg + sc (jk.1 * sx + jk.2 + l0))) }) ar).bg_data
      = L.foldl (fun g jk => updAt g (jk.1 * sx + jk.2 + l0)
          (g (jk.1 * sx + jk.2 + l0) + (bg + sc (jk.1 * sx + jk.2 + l0)))) ar.bg_data)
    ∧ ((L.foldl (fun ar jk =>
        { ar with
          f_data := updAt ar.f_data (jk.1 * sx + jk.2 + l0)
            (ar.f_data (jk.1 * sx + jk.2 + l0) + mag * ey jk.1 * ex jk.2),
          bg_counts := updAt ar.bg_counts (jk.1 * sx + jk.2 + l0)
            (ar.bg_counts (jk.1 * sx + jk.2 + l0) + 1),
          bg_data := updAt ar.bg_data (jk.1 * sx + jk.2 + l0)
            (ar.bg_data (jk.1 * sx + jk.2 + l0)
              + (bg + sc (jk.1 * sx + jk.2 + l0))) }) ar).scmos_term
      = ar.scmos_term)
    ∧ ((L.foldl (fun ar jk =>
        { ar with
          f_data := updAt ar.f_data (jk.1 * sx + jk.2 + l0)
            (ar.f_data (jk.1 * sx + jk.2 + l0) + mag * ey jk.1 * ex jk.2),
          bg_counts := updAt ar.bg_counts (jk.1 * sx + jk.2 + l0)
            (ar.bg_counts (jk.1 * sx + jk.2 + l0) + 1),
          bg_data := updAt ar.bg_data (jk.1 * sx + jk.2 + l0)
            (ar.bg_data (jk.1 * sx + jk.2 + l0)
              + (bg + sc (jk.1 * sx + jk.2 + l0))) }) ar).image_size_x
      = ar.image_size_x) := by
  intro L
  induction L with
  | nil => intro ar; exact ⟨rfl, rfl, rfl, rfl, rfl⟩
  | cons a t ih =>
    intro ar
    rcases ih ({ ar with
      f_data := updAt ar.f_data (a.1 * sx + a.2 + l0)
        (ar.f_data (a.1 * sx + a.2 + l0) + mag * ey a.1 * ex a.2),
      bg_counts := updAt ar.bg_counts (a.1 * sx + a.2 + l0)
        (ar.bg_counts (a.1 * sx + a.2 + l0) + 1),
      bg_data := updAt ar.bg_data (a.1 * sx + a.2 + l0)
        (ar.bg_data (a.1 * sx + a.2 + l0)
          + (bg + sc (a.1 * sx + a.2 + l0))) }) with ⟨h1, h2, h3, h4, h5⟩
    exact ⟨h1, h2, h3, h4, h5⟩

theorem fold3_sub_decomp (sx l0 : ℤ) (mag bg : ℚ) (ey ex sc : ℤ → ℚ) :
    ∀ (L : List (ℤ × ℤ)) (ar : FitData),
    ((L.foldl (fun ar jk =>
        { ar with
          f_data := updAt ar.f_data (jk.1 * sx + jk.2 + l0)
            (ar.f_data (jk.1 * sx + jk.2 + l0) - mag * ey jk.1 * ex jk.2),
          bg_counts := updAt ar.bg_counts (jk.1 * sx + jk.2 + l0)
            (ar.bg_counts (jk.1 * sx + jk.2 + l0) - 1),
          bg_data := updAt ar.bg_data (jk.1 * sx + jk.2 + l0)
            (ar.bg_data (jk.1 * sx + jk.2 + l0)
              - (bg + sc (jk.1 * sx + jk.2 + l0))) }) ar).f_data
      = L.foldl (fun g jk => updAt g (jk.1 * sx + jk.2 + l0)
          (g (jk.1 * sx + jk.2 + l0) - mag * ey jk.1 * ex jk.2)) ar.f_data)
    ∧ ((L.foldl (fun ar jk =>
        { ar with
          f_data := updAt ar.f_data (jk.1 * sx + jk.2 + l0)
            (ar.f_data (jk.1 * sx + jk.2 + l0) - mag * ey jk.1 * ex jk.2),
          bg_counts := updAt ar.bg_counts (jk.1 * sx + jk.2 + l0)
            (ar.bg_counts (jk.1 * sx + jk.2 + l0) - 1),
          bg_data := updAt ar.bg_data (jk.1 * sx + jk.2 + l0)
            (ar.bg_data (jk.1 * sx + jk.2 + l0)
              - (bg + sc (jk.1 * sx + jk.2 + l0))) }) ar).bg_counts
      = L.foldl (fun g jk => updAt g (jk.1 * sx + jk.2 + l0)
          (g (jk.1 * sx + jk.2 + l0) - 1)) ar.bg_counts)
    ∧ ((L.foldl (fun ar jk =>
        { ar with
          f_data := updAt ar.f_data (jk.1 * sx + jk.2 + l0)
            (ar.f_data (jk.1 * sx + jk.2 + l0) - mag * ey jk.1 * ex jk.2),
          bg_counts := updAt ar.bg_counts (jk.1 * sx + jk.2 + l0)
            (ar.bg_counts (jk.1 * sx + jk.2 + l0) - 1),
          bg_data := updAt ar.bg_data (jk.1 * sx + jk.2 + l0)
            (ar.bg_data (jk.1 * sx + jk.2 + l0)
              - (bg + sc (jk.1 * sx + jk.2 + l0))) }) ar).bg_data
      = L.foldl (fun g jk => updAt g (jk.1 * sx + jk.2 + l0)
          (g (jk.1 * sx + jk.2 + l0) - (bg + sc (jk.1 * sx + jk.2 + l0)))) ar.bg_data) := by
  intro L
  induction L with
  | nil => intro ar; exact ⟨rfl, rfl, rfl⟩
  | cons a t ih =>
    intro ar
    rcases ih ({ ar with
      f_data := updAt ar.f_data (a.1 * sx + a.2 + l0)
        (ar.f_data (a.1 * sx + a.2 + l0) - mag * ey a.1 * ex a.2),
      bg_counts := updAt ar.bg_counts (a.1 * sx + a.2 + l0)
        (ar.bg_counts (a.1 * sx + a.2 + l0) - 1),
      bg_data := updAt ar.bg_data (a.1 * sx + a.2 + l0)
        (ar.bg_data (a.1 * sx + a.2 + l0)
          - (bg + sc (a.1 * sx + a.2 + l0))) }) with ⟨h1, h2, h3⟩
    exact ⟨h1, h2, h3⟩

theorem gaussAdd_apply (fd : FitData) (p : PeakData) (m : ℤ) :
    ((gaussAdd fd p).f_data m = fd.f_data m
      + ((boxList p.wx p.wy).map (fun jk =>
          if jk.1 * fd.image_size_x + jk.2 + p.offset = m then
            p.params HEIGHT * p.eyt (jk.1 + p.wy) * p.ext (jk.2 + p.wx)
          else 0)).sum)
    ∧ ((gaussAdd fd p).bg_counts m = fd.bg_counts m
      + ((boxList p.wx p.wy).map (fun jk =>
          if jk.1 * fd.image_size_x + jk.2 + p.offset = m then (1 : ℤ) else 0)).sum)
    ∧ ((gaussAdd fd p).bg_data m = fd.bg_data m
      + ((boxList p.wx p.wy).map (fun jk =>
          if jk.1 * fd.image_size_x + jk.2 + p.offset = m then
            p.params BACKGROUND + fd.scmos_term (jk.1 * fd.image_size_x + jk.2 + p.offset)
          else 0)).sum)
    ∧ (gaussAdd fd p).scmos_term = fd.scmos_term
    ∧ (gaussAdd fd p).image_size_x = fd.image_size_x := by
  have hd := fold3_add_decomp fd.image_size_x p.offset (p.params HEIGHT)
    (p.params BACKGROUND) (fun j => p.eyt (j + p.wy)) (fun k => p.ext (k + p.wx))
    fd.scmos_term (boxList p.wx p.wy) fd
  refine ⟨?_, ?_, ?_, hd.2.2.2.1, hd.2.2.2.2⟩
  · exact (congrFun hd.1 m).trans
      (foldl_add_apply (fun jk : ℤ × ℤ => jk.1 * fd.image_size_x + jk.2 + p.offset)
        (fun jk : ℤ × ℤ => p.params HEIGHT * p.eyt (jk.1 + p.wy) * p.ext (jk.2 + p.wx))
        (boxList p.wx p.wy) fd.f_data m)
  · exact (congrFun hd.2.1 m).trans
      (foldl_add_apply (fun jk : ℤ × ℤ => jk.1 * fd.image_size_x + jk.2 + p.offset)
        (fun _ : ℤ × ℤ => (1 : ℤ)) (boxList p.wx p.wy) fd.bg_counts m)
  · exact (congrFun hd.2.2.1 m).trans
      (foldl_add_apply (fun jk : ℤ × ℤ => jk.1 * fd.image_size_x + jk.2 + p.offset)
        (fun jk : ℤ × ℤ => p.params BACKGROUND
          + fd.scmos_term (jk.1 * fd.image_size_x + jk.2 + p.offset))
        (boxList p.wx p.wy) fd.bg_data m)

theorem subtractPeak_apply (FD : FitData) (p : PeakData) (m : ℤ) :
    ((subtractPeak FD p).f_data m = FD.f_data m
      - ((boxList p.wx p.wy).map (fun jk =>
          if jk.1 * FD.image_size_x + jk.2 + p.offset = m then
            p.params HEIGHT * p.eyt (jk.1 + p.wy) * p.ext (jk.2 + p.wx)
          else 0)).sum)
    ∧ ((subtractPeak FD p).bg_counts m = FD.bg_counts m
      - ((boxList p.wx p.wy).map (fun jk =>
          if jk.1 * FD.image_size_x + jk.2 + p.offset = m then (1 : ℤ) else 0)).sum)
    ∧ ((subtractPeak FD p).bg_data m = FD.bg_data m
      - ((boxList p.wx p.wy).map (fun jk =>
          if jk.1 * FD.image_size_x + jk.2 + p.offset = m then
            p.params BACKGROUND + FD.scmos_term (jk.1 * FD.image_size_x + jk.2 + p.offset)
          else 0)).sum) := by
  have hd := fold3_sub_decomp FD.image_size_x p.offset (p.params HEIGHT)
    (p.params BACKGROUND) (fun j => p.eyt (j + p.wy)) (fun k => p.ext (k + p.wx))
    FD.scmos_term (boxList p.wx p.wy) FD
  refine ⟨?_, ?_, ?_⟩
  · exact (congrFun hd.1 m).trans
      (foldl_sub_apply (fun jk : ℤ × ℤ => jk.1 * FD.image_size_x + jk.2 + p.offset)
        (fun jk : ℤ × ℤ => p.params HEIGHT * p.eyt (jk.1 + p.wy) * p.ext (jk.2 + p.wx))
        (boxList p.wx p.wy) FD.f_data m)
  · exact (congrFun hd.2.1 m).trans
      (foldl_sub_apply (fun jk : ℤ × ℤ => jk.1 * FD.image_size_x + jk.2 + p.offset)
        (fun _ : ℤ × ℤ => (1 : ℤ)) (boxList p.wx p.wy) FD.bg_counts m)
  · exact (congrFun hd.2.2 m).trans
      (foldl_sub_apply (fun jk : ℤ × ℤ => jk.1 * FD.image_size_x + jk.2 + p.offset)
        (fun jk : ℤ × ℤ => p.params BACKGROUND
          + FD.scmos_term (jk.1 * FD.image_size_x + jk.2 + p.offset))
        (boxList p.wx p.wy) FD.bg_data m)

set_option maxHeartbeats 1000000 in
/-- C9 (confirmed): `addPeak` followed by `subtractPeak` on the resulting
peak (whose parameters, anchor, box sizes and exponential caches are
exactly those the subtraction uses) restores `f_data`, `bg_data` and
`bg_counts` exactly, for every environment, fit state and peak. -/
theorem C9_add_subtract_restores (env : CEnv) (fd : FitData) (p : PeakData) :
    (subtractPeak (addPeak env fd p).1 (addPeak env fd p).2).f_data = fd.f_data
    ∧ (subtractPeak (addPeak env fd p).1 (addPeak env fd p).2).bg_data = fd.bg_data
    ∧ (subtractPeak (addPeak env fd p).1 (addPeak env fd p).2).bg_counts = fd.bg_counts := by
  have hfd1 : (addPeak env fd p).1 = gaussAdd fd (addPeak env fd p).2 := rfl
  have hA := fun m => gaussAdd_apply fd (addPeak env fd p).2 m
  have hS := fun m => subtractPeak_apply (addPeak env fd p).1 (addPeak env fd p).2 m
  have hsc : (addPeak env fd p).1.scmos_term = fd.scmos_term := by
    rw [hfd1]; exact (hA 0).2.2.2.1
  have hsx : (addPeak env fd p).1.image_size_x = fd.image_size_x := by
    rw [hfd1]; exact (hA 0).2.2.2.2
  refine ⟨funext fun m => ?_, funext fun m => ?_, funext fun m => ?_⟩
  · rw [(hS m).1, hsx]
    have : (addPeak env fd p).1.f_data m = fd.f_data m
        + ((boxList (addPeak env fd p).2.wx (addPeak env fd p).2.wy).map (fun jk =>
            if jk.1 * fd.image_size_x + jk.2 + (addPeak env fd p).2.offset = m then
              (addPeak env fd p).2.params HEIGHT
                * (addPeak env fd p).2.eyt (jk.1 + (addPeak env fd p).2.wy)
                * (addPeak env fd p).2.ext (jk.2 + (addPeak env fd p).2.wx)
            else 0)).sum := by
      rw [hfd1]; exact (hA m).1
    rw [this, add_sub_cancel_right]
  · rw [(hS m).2.2, hsx, hsc]
    have : (addPeak env fd p).1.bg_data m = fd.bg_data m
        + ((boxList (addPeak env fd p).2.wx (addPeak env fd p).2.wy).map (fun jk =>
            if jk.1 * fd.image_size_x + jk.2 + (addPeak env fd p).2.offset = m then
              (addPeak env fd p).2.params BACKGROUND
                + fd.scmos_term (jk.1 * fd.image_size_x + jk.2 + (addPeak env fd p).2.offset)
            else 0)).sum := by
      rw [hfd1]; exact (hA m).2.2.1
    rw [this, add_sub_cancel_right]
  · rw [(hS m).2.1, hsx]
    have : (addPeak env fd p).1.bg_counts m = fd.bg_counts m
        + ((boxList (addPeak env fd p).2.wx (addPeak env fd p).2.wy).map (fun jk =>
            if jk.1 * fd.image_size_x + jk.2 + (addPeak env fd p).2.offset = m then (1 : ℤ)
            else 0)).sum := by
      rw [hfd1]; exact (hA m).2.1
    rw [this, add_sub_cancel_right]

/-- C10 (confirmed): for every channel below `n_channels`,
`mpResetWorkingPeaks` overwrites the working peak with a copy of the
committed peak at `index`, except that the `added` flag keeps the working
peak's previous value and `lambda` becomes the working peak's previous
value times LAMBDAUP; the status is forced to ERROR.  All other
working-peak fields equal the committed peak's, and the channel's
committed peak array is untouched. -/
theorem C10_reset_working_peaks (mp : MpFit) (index : ℕ) (c : ℕ)
    (hc : c < mp.n_channels) :
    ((mpResetWorkingPeaks mp index).fit_data c).working_peak
      = { (mp.fit_data c).fit index with
          added := ((mp.fit_data c).working_peak).added,
          lambda := ((mp.fit_data c).working_peak).lambda * LAMBDAUP,
          status := ERROR }
    ∧ ((mpResetWorkingPeaks mp index).fit_data c).fit = (mp.fit_data c).fit
    ∧ ((mpResetWorkingPeaks mp index).fit_data c).nfit = (mp.fit_data c).nfit := by
  have hk : 0 ≤ c ∧ c < 0 + mp.n_channels := ⟨Nat.zero_le c, by omega⟩
  refine ⟨?_, ?_, ?_⟩ <;>
    simp only [mpResetWorkingPeaks] <;>
    rw [chanUpd_apply, if_pos hk]

/-- C10 (witness): the reset applied to the concrete one-channel state. -/
theorem C10_reset_witness :
    0 < mpC2.n_channels
    ∧ (((mpResetWorkingPeaks mpC2 0).fit_data 0).working_peak
        = { (mpC2.fit_data 0).fit 0 with
            added := ((mpC2.fit_data 0).working_peak).added,
            lambda := ((mpC2.fit_data 0).working_peak).lambda * LAMBDAUP,
            status := ERROR }
      ∧ ((mpResetWorkingPeaks mpC2 0).fit_data 0).fit = (mpC2.fit_data 0).fit
      ∧ ((mpResetWorkingPeaks mpC2 0).fit_data 0).nfit = (mpC2.fit_data 0).nfit) :=
  ⟨Nat.zero_lt_one, C10_reset_working_peaks mpC2 0 0 Nat.zero_lt_one⟩

/-- The C truncation-then-clamp of the weight bin agrees with the spec's
floor-then-clamp whenever at least one weight bin exists. -/
theorem cIntClamp_eq_floorClamp (v : ℚ) (nw : ℤ) (h : 1 ≤ nw) :
    (if (if cInt v < 0 then 0 else cInt v) ≥ nw then nw - 1
     else if cInt v < 0 then 0 else cInt v)
      = max 0 (min ⌊v⌋ (nw - 1)) := by
  by_cases h0 : 0 ≤ v
  · have hf : (0:ℤ) ≤ ⌊v⌋ := Int.floor_nonneg.mpr h0
    simp only [cInt, if_pos h0]
    split_ifs <;> omega
  · have hv : v < 0 := lt_of_not_le h0
    have hfneg : ⌊v⌋ < 0 := by
      have h1 : (⌊v⌋ : ℚ) ≤ v := Int.floor_le v
      have h2 : (⌊v⌋ : ℚ) < 0 := lt_of_le_of_lt h1 hv
      exact_mod_cast h2
    have hneg : (0:ℤ) ≤ ⌊-v⌋ := Int.floor_nonneg.mpr (by linarith)
    simp only [cInt, if_neg h0]
    split_ifs <;> omega

/-- The hysteresis step only moves the integer anchors, never the
floating-point parameters. -/
theorem mpHyst_params (pk : MpPeak) : (mpHyst pk).params = pk.params := by
  simp only [mpHyst]
  split_ifs <;> rfl

set_option maxHeartbeats 1600000 in
/-- C6 (confirmed): in `mpUpdate`, with the z bin
`zi = clamp(floor(w_z_scale * (ZCENTER - w_z_offset)), 0, n_weights - 1)`,
the committed channel-0 XCENTER moves by the `h_c * w_x[zi,c]`-weighted
average over channels of `yt_Nto0[c][1] * dy_c + yt_Nto0[c][2] * dx_c`
divided by the sum of the weights, and every channel above 0 receives its
XCENTER and YCENTER by the forward affine map applied to channel 0's
updated coordinates with the half-pixel origin correction. -/
theorem C6_mp_coordinated_update (mp : MpFit)
    (hnw : 1 ≤ mp.n_weights) (hnc : 0 < mp.n_channels) :
    ((mpUpdate mp).fit_data 0).working_peak.params XCENTER
      = (mp.fit_data 0).working_peak.params XCENTER
        - (∑ i ∈ Finset.range mp.n_channels,
            (mp.yt_Nto0 (i * 3 + 1) * mp.w_jacobian i 2
              + mp.yt_Nto0 (i * 3 + 2) * mp.w_jacobian i 1)
            * mp.w_x (specZIndex mp * (mp.n_channels : ℤ) + (i : ℤ)) * mp.heights i)
          / (∑ i ∈ Finset.range mp.n_channels,
              mp.w_x (specZIndex mp * (mp.n_channels : ℤ) + (i : ℤ)) * mp.heights i)
    ∧ ∀ c, 1 ≤ c → c < mp.n_channels →
        ((mpUpdate mp).fit_data c).working_peak.params XCENTER
          = mp.yt_0toN (c * 3)
            + mp.yt_0toN (c * 3 + 1)
              * (((mpUpdate mp).fit_data 0).working_peak.params YCENTER + (mp.fit_data 0).yoff)
            + mp.yt_0toN (c * 3 + 2)
              * (((mpUpdate mp).fit_data 0).working_peak.params XCENTER + (mp.fit_data 0).xoff)
            - (mp.fit_data 0).xoff
        ∧ ((mpUpdate mp).fit_data c).working_peak.params YCENTER
          = mp.xt_0toN (c * 3)
            + mp.xt_0toN (c * 3 + 1)
              * (((mpUpdate mp).fit_data 0).working_peak.params YCENTER + (mp.fit_data 0).yoff)
            + mp.xt_0toN (c * 3 + 2)
              * (((mpUpdate mp).fit_data 0).working_peak.params XCENTER + (mp.fit_data 0).xoff)
            - (mp.fit_data 0).yoff := by
  have hzi := cIntClamp_eq_floorClamp
    (mp.w_z_scale * ((mp.fit_data 0).working_peak.params ZCENTER - mp.w_z_offset))
    mp.n_weights hnw
  constructor
  · simp only [mpUpdate, specZIndex]
    rw [← hzi]
    simp only [range_pairFold]
    simp [chanUpd_apply, mpZRange, mpHyst_params, mFitUpdateParam, updAtN_apply,
      hnc, XCENTER, YCENTER, ZCENTER, BACKGROUND, HEIGHT]
  · intro c h1 h2
    have h0c : c ≠ 0 := by omega
    have h3 : 1 ≤ c ∧ c < 1 + (mp.n_channels - 1) := by omega
    have h4 : 0 ≤ c ∧ c < 0 + mp.n_channels := by omega
    have h6 : c < 1 + (mp.n_channels - 1) := by omega
    have h7 : c < mp.n_channels - 1 + 1 := by omega
    simp only [mpUpdate]
    simp only [range_pairFold]
    simp [chanUpd_apply, mpZRange, mpHyst_params, mFitUpdateParam, updAtN_apply,
      hnc, h0c, h1, h2, h3.1, h3.2, h4.2, h6, h7,
      XCENTER, YCENTER, ZCENTER, BACKGROUND, HEIGHT]

/-- C6 (witness): the coordinated-update law at the concrete one-channel
state. -/
theorem C6_mp_witness :
    (1 ≤ mpC2.n_weights ∧ 0 < mpC2.n_channels)
    ∧ (((mpUpdate mpC2).fit_data 0).working_peak.params XCENTER
        = (mpC2.fit_data 0).working_peak.params XCENTER
          - (∑ i ∈ Finset.range mpC2.n_channels,
              (mpC2.yt_Nto0 (i * 3 + 1) * mpC2.w_jacobian i 2
                + mpC2.yt_Nto0 (i * 3 + 2) * mpC2.w_jacobian i 1)
              * mpC2.w_x (specZIndex mpC2 * (mpC2.n_channels : ℤ) + (i : ℤ)) * mpC2.heights i)
            / (∑ i ∈ Finset.range mpC2.n_channels,
                mpC2.w_x (specZIndex mpC2 * (mpC2.n_channels : ℤ) + (i : ℤ)) * mpC2.heights i)
      ∧ ∀ c, 1 ≤ c → c < mpC2.n_channels →
          ((mpUpdate mpC2).fit_data c).working_peak.params XCENTER
            = mpC2.yt_0toN (c * 3)
              + mpC2.yt_0toN (c * 3 + 1)
                * (((mpUpdate mpC2).fit_data 0).working_peak.params YCENTER + (mpC2.fit_data 0).yoff)
              + mpC2.yt_0toN (c * 3 + 2)
                * (((mpUpdate mpC2).fit_data 0).working_peak.params XCENTER + (mpC2.fit_data 0).xoff)
              - (mpC2.fit_data 0).xoff
          ∧ ((mpUpdate mpC2).fit_data c).working_peak.params YCENTER
            = mpC2.xt_0toN (c * 3)
              + mpC2.xt_0toN (c * 3 + 1)
                * (((mpUpdate mpC2).fit_data 0).working_peak.params YCENTER + (mpC2.fit_data 0).yoff)
              + mpC2.xt_0toN (c * 3 + 2)
                * (((mpUpdate mpC2).fit_data 0).working_peak.params XCENTER + (mpC2.fit_data 0).xoff)
              - (mpC2.fit_data 0).yoff) :=
  ⟨⟨by decide, by decide⟩, C6_mp_coordinated_update mpC2 (by decide) (by decide)⟩

set_option maxRecDepth 8000 in
/-- C7 (code_bug): in the retry loop of `mpIterateLM`, `current_error` is
accumulated only inside the `mFitCalcErr` failure branch, so on the normal
path the accept / reject decision of step 7 compares 0 against the
starting error instead of the recomputed summed error.  On the concrete
one-channel input below the recomputed error is 20 against a starting
error of 10 (relative increase 1, far above the tolerance 1/100), so the
spec's rule demands a retry with `lambda *= LAMBDAUP`; the code instead
commits: the emitter ends with status RUNNING and
`lambda = LAMBDADOWN = 9/10`. -/
theorem C7_error_decision_bug :
    ((mpIterateLMOne mpC2 orcC7 (fun _ => 10) 0 2).map
        (fun r => (((r.1.fit_data 0).working_peak).status,
          ((r.1.fit_data 0).working_peak).lambda, r.2))
      = some (RUNNING, 9/10, 1))
    ∧ (lmStep6 mpC2.n_channels (fun k => orcC7.errFail 1 k)
        (fun k => orcC7.errVal 1 k)).1 = 0
    ∧ (∑ k ∈ Finset.range mpC2.n_channels, orcC7.errVal 1 k) = 20
    ∧ lmStep7 mpC2.tolerance 20 10 = LMDecision.retry := by
  refine ⟨?_, ?_, ?_, ?_⟩
  · exact of_decide_eq_true (by with_unfolding_all rfl)
  · exact of_decide_eq_true (by with_unfolding_all rfl)
  · simp [mpC2, orcC7]
  · with_unfolding_all rfl

/-- The hysteresis step never changes the status. -/
theorem mpHyst_status (pk : MpPeak) : (mpHyst pk).status = pk.status := by
  simp only [mpHyst]
  split_ifs <;> rfl

/-- A channel loop whose step keeps each working peak's status keeps every
entry's working status. -/
theorem chanUpd_wpStatus {g : ℕ → MpFitData → MpFitData}
    (h : ∀ i cd, ((g i cd).working_peak).status = (cd.working_peak).status)
    (s n : ℕ) (F : ℕ → MpFitData) (c : ℕ) :
    ((chanUpd g s n F c).working_peak).status = ((F c).working_peak).status :=
  chanUpd_proj g (fun cd => (cd.working_peak).status) h s n F c

/-- First component of a two-array channel loop, pointwise. -/
theorem chanUpd2_fst {α β : Type} (g : ℕ → α → β → α × β) (s n : ℕ)
    (FH : (ℕ → α) × (ℕ → β)) (c : ℕ) :
    (chanUpd2 g s n FH).1 c
      = if s ≤ c ∧ c < s + n then (g c (FH.1 c) (FH.2 c)).1 else FH.1 c :=
  (chanUpd2_apply g n s FH c).1

/-- A two-array channel loop whose step keeps each working peak's status
keeps every entry's working status. -/
theorem chanUpd2_wpStatus {β : Type} {g : ℕ → MpFitData → β → MpFitData × β}
    (h : ∀ i cd b, (((g i cd b).1).working_peak).status = (cd.working_peak).status)
    (s n : ℕ) (FH : (ℕ → MpFitData) × (ℕ → β)) (c : ℕ) :
    (((chanUpd2 g s n FH).1 c).working_peak).status
      = ((FH.1 c).working_peak).status := by
  rw [chanUpd2_fst]
  split
  · exact h c (FH.1 c) (FH.2 c)
  · rfl

/-- The coordinated update never changes any working peak's status. -/
theorem mpUpdate_status (x : MpFit) (c : ℕ) :
    ((mpUpdate x).fit_data c).working_peak.status
      = ((x.fit_data c).working_peak).status := by
  simp only [mpUpdate]
  rw [chanUpd_wpStatus]
  rw [chanUpd_wpStatus]
  rw [chanUpd_wpStatus]
  rw [chanUpd_wpStatus]
  · simp only [updAtN_apply]
    by_cases hc : c = 0 <;> simp [hc, mFitUpdateParam]
  · intro i cd; rfl
  · intro i cd; simp [mpHyst_status]
  · intro i cd; simp [mpZRange, mFitUpdateParam]
  · intro i cd; simp [mFitUpdateParam]

/-- The fixed-heights update never changes any working peak's status. -/
theorem mpUpdateFixed_status (x : MpFit) (c : ℕ) :
    ((mpUpdateFixed x).fit_data c).working_peak.status
      = ((x.fit_data c).working_peak).status := by
  simp only [mpUpdateFixed]
  rw [mpUpdate_status]
  rw [chanUpd_wpStatus]
  · simp only [updAtN_apply]
    by_cases hc : c = 0 <;> simp [hc, mFitUpdateParam]
  · intro i cd; rfl

/-- The independent-heights update never changes any working peak's
status. -/
theorem mpUpdateIndependent_status (x : MpFit) (c : ℕ) :
    ((mpUpdateIndependent x).fit_data c).working_peak.status
      = ((x.fit_data c).working_peak).status := by
  simp only [mpUpdateIndependent]
  rw [mpUpdate_status]
  rw [chanUpd2_wpStatus]
  intro i cd b
  simp only [mFitUpdateParam]
  split_ifs <;> rfl

/-- The dispatched update never changes any working peak's status. -/
theorem mpFnUpdate_status (x : MpFit) (c : ℕ) :
    ((mpFnUpdate x).fit_data c).working_peak.status
      = ((x.fit_data c).working_peak).status := by
  simp only [mpFnUpdate]
  split_ifs
  · exact mpUpdateIndependent_status x c
  · exact mpUpdateFixed_status x c

/-- The dispatched update keeps the channel count. -/
theorem mpFnUpdate_nchannels (x : MpFit) :
    (mpFnUpdate x).n_channels = x.n_channels := by
  simp only [mpFnUpdate]
  split_ifs <;> rfl

/-- The solver pass touches only the per-channel counters, never the
working peaks. -/
theorem solveFold_working (orc : LMOracle) (j nc : ℕ) (F : ℕ → MpFitData)
    (c : ℕ) :
    ((solveFold orc j nc F).1 c).working_peak = (F c).working_peak := by
  suffices h : ∀ (l : List ℕ) (a : (ℕ → MpFitData) × Bool),
      ((l.foldl (fun (a : (ℕ → MpFitData) × Bool) k =>
        if a.2 then a
        else
          let G := updAtN a.1 k { a.1 k with n_iterations := (a.1 k).n_iterations + 1 };
          if orc.solveFail j k then
            (updAtN G k { G k with n_dposv := (G k).n_dposv + 1 }, true)
          else (G, false)) a).1 c).working_peak = ((a.1 c).working_peak) by
    exact h (List.range nc) (F, false)
  intro l
  induction l with
  | nil => intro a; rfl
  | cons k t ih =>
    intro a
    rw [List.foldl_cons, ih]
    by_cases hb : a.2
    · simp [hb]
    · by_cases hs : orc.solveFail j k
      · by_cases hc : c = k <;> simp [hb, hs, hc, updAtN_apply]
      · by_cases hc : c = k <;> simp [hb, hs, hc, updAtN_apply]

/-- The working-peak reset keeps the channel count. -/
theorem mpResetWorkingPeaks_nchannels (x : MpFit) (i : ℕ) :
    (mpResetWorkingPeaks x i).n_channels = x.n_channels := rfl

/-- Exit invariant of the retry loop: a normal exit keeps the channel
count, returns `n_add` increased by exactly `n_channels` over its entry
value, and leaves channel 0's working status CONVERGED or RUNNING. -/
theorem lmLoop_inv (orc : LMOracle) (index : ℕ) (se : ℚ) :
    ∀ (fuel j : ℕ) (mp : MpFit) (na : ℤ) (r : MpFit × ℤ),
    lmLoop orc index se fuel j mp na = some r →
    r.1.n_channels = mp.n_channels
    ∧ r.2 = na + (mp.n_channels : ℤ)
    ∧ (0 < mp.n_channels →
        ((r.1.fit_data 0).working_peak.status = CONVERGED
          ∨ (r.1.fit_data 0).working_peak.status = RUNNING)) := by
  intro fuel
  induction fuel with
  | zero => intro j mp na r h; exact absurd h (by simp [lmLoop])
  | succ fuel ih =>
    intro j mp na r h
    simp only [lmLoop] at h
    split at h
    · obtain ⟨h1, h2, h3⟩ := ih _ _ _ _ h
      exact ⟨h1, h2, h3⟩
    · split at h
      · obtain ⟨h1, h2, h3⟩ := ih _ _ _ _ h
        simp only [mpResetWorkingPeaks_nchannels, mpFnUpdate_nchannels] at h1 h2 h3
        exact ⟨h1, h2, h3⟩
      · split at h
        · obtain ⟨h1, h2, h3⟩ := ih _ _ _ _ h
          simp only [mpResetWorkingPeaks_nchannels, mpFnUpdate_nchannels] at h1 h2 h3
          refine ⟨h1, by omega, h3⟩
        · split at h
          · rw [Option.some.injEq] at h
            subst h
            refine ⟨?_, ?_, ?_⟩
            · simp only [mpFnUpdate_nchannels]
            · simp only [mpFnUpdate_nchannels]
            · intro hpos
              left
              simp [chanUpd_apply, mpFnUpdate_nchannels, hpos]
          · obtain ⟨h1, h2, h3⟩ := ih _ _ _ _ h
            simp only [mpResetWorkingPeaks_nchannels, mpFnUpdate_nchannels] at h1 h2 h3
            refine ⟨h1, by omega, h3⟩
          · rw [Option.some.injEq] at h
            subst h
            refine ⟨?_, ?_, ?_⟩
            · simp only [mpFnUpdate_nchannels]
            · simp only [mpFnUpdate_nchannels]
            · intro hpos
              right
              rw [chanUpd_wpStatus]
              · rw [chanUpd_wpStatus]
                · rw [chanUpd_wpStatus]
                  · rw [mpFnUpdate_status]
                    simp only [solveFold_working]
                    simp [chanUpd_apply, hpos]
                  · intro i cd; rfl
                · intro i cd; rfl
              · intro i cd; rfl

/-- C8 (confirmed): for every emitter processed by the LM driver, the
add / subtract counter (initialized to `n_channels`, decremented per
subtraction, re-incremented per re-add, returned here relative to the
post-subtraction value 0 as `n_channels` on exit) ends at `n_channels`
when the committed status is not ERROR and at 0 when it is ERROR, so the
TESTING assertion never fails. -/
theorem C8_n_add_assertion (mp : MpFit) (orc : LMOracle) (startErr : ℕ → ℚ)
    (index fuel : ℕ) :
    match mpIterateLMOne mp orc startErr index fuel with
    | none => True
    | some r =>
      (((r.1.fit_data 0).working_peak).status = ERROR → r.2 = 0)
      ∧ (((r.1.fit_data 0).working_peak).status ≠ ERROR
          → r.2 = (r.1.n_channels : ℤ)) := by
  cases hq : mpIterateLMOne mp orc startErr index fuel with
  | none => trivial
  | some r =>
    simp only [mpIterateLMOne] at hq
    split at hq
    · exact Option.noConfusion hq
    · rename_i rr heq
      rw [Option.some.injEq] at hq
      obtain ⟨h1, h2, h3⟩ := lmLoop_inv _ _ _ _ _ _ _ _ heq
      have h1' : rr.1.n_channels = mp.n_channels := h1
      have h2' : rr.2 = ((mp.n_channels : ℤ) - (mp.n_channels : ℤ)) + (mp.n_channels : ℤ) := h2
      have h3' : 0 < mp.n_channels →
          ((rr.1.fit_data 0).working_peak.status = CONVERGED
            ∨ (rr.1.fit_data 0).working_peak.status = RUNNING) := h3
      subst hq
      refine ⟨?_, fun _ => ?_⟩
      · intro hErr
        by_cases hpos : 0 < mp.n_channels
        · exfalso
          have hpos' : 0 < rr.1.n_channels := by omega
          simp only [chanUpd_apply] at hErr
          simp [hpos'] at hErr
          rcases h3' hpos with hc | hc <;> rw [hc] at hErr <;>
            exact absurd hErr (by decide)
        · have hr : rr.2 = 0 := by omega
          exact hr
      · have hr : rr.2 = (rr.1.n_channels : ℤ) := by omega
        exact hr

/-- A fold whose step preserves a projection preserves it overall. -/
theorem foldl_preserves {α β γ : Type} (f : α → β → α) (proj : α → γ)
    (h : ∀ a b, proj (f a b) = proj a) :
    ∀ (l : List β) (a : α), proj (l.foldl f a) = proj a := by
  intro l
  induction l with
  | nil => intro a; rfl
  | cons b t ih => intro a; rw [List.foldl_cons, ih, h]

/-- A fold whose step conses exactly one element grows the list component
by the length of the input list. -/
theorem foldl_snd_length {α β γ : Type} (f : α × List γ → β → α × List γ)
    (h : ∀ a b, (f a b).2.length = a.2.length + 1) :
    ∀ (l : List β) (a : α × List γ),
      (l.foldl f a).2.length = a.2.length + l.length := by
  intro l
  induction l with
  | nil => intro a; simp
  | cons b t ih =>
    intro a
    rw [List.foldl_cons, ih, h]
    simp [List.length_cons]
    omega

/-- Peak subtraction only touches the residual arrays, not the peak
count. -/
theorem subtractPeak_nfit (fd : FitData) (p : PeakData) :
    (subtractPeak fd p).nfit = fd.nfit := by
  simp only [subtractPeak]
  refine foldl_preserves _ (fun x => x.nfit) ?_ _ fd
  intro a b
  rfl

/-- The error pass never changes the peak count. -/
theorem calcErrStep_nfit (env : CEnv) (fd : FitData) (p : PeakData) :
    ((calcErrStep env fd p).1).nfit = fd.nfit := by
  simp only [calcErrStep]
  split_ifs <;> simp [subtractPeak_nfit]

/-- A per-peak pass whose step preserves the peak count preserves it. -/
theorem mapPeaks_nfit (step : FitData → PeakData → FitData × PeakData)
    (hstep : ∀ fd p, ((step fd p).1).nfit = fd.nfit) (fd : FitData) :
    (mapPeaks step fd).nfit = fd.nfit := by
  simp only [mapPeaks]
  refine foldl_preserves
    (fun (acc : FitData × List PeakData) p => ((step acc.1 p).1, (step acc.1 p).2 :: acc.2))
    (fun a => a.1.nfit) ?_ fd.fit (fd, [])
  intro a b
  exact hstep a.1 b

/-- A per-peak pass emits exactly one peak per stored peak. -/
theorem mapPeaks_length (step : FitData → PeakData → FitData × PeakData)
    (fd : FitData) :
    (mapPeaks step fd).fit.length = fd.fit.length := by
  simp only [mapPeaks]
  rw [List.length_reverse, foldl_snd_length]
  · simp
  · intro a b
    rfl

/-- A fold of array transformers that each preserve channel `c`'s committed
entry `ip` and peak count preserves both. -/
theorem foldlF_fit_nfit (f : (ℕ → MpFitData) → ℕ → (ℕ → MpFitData))
    (c ip : ℕ) :
    ∀ (l : List ℕ),
    (∀ F i, i ∈ l → ((f F i) c).fit ip = (F c).fit ip
        ∧ ((f F i) c).nfit = (F c).nfit) →
    ∀ (F : ℕ → MpFitData),
      ((l.foldl f F) c).fit ip = (F c).fit ip
      ∧ ((l.foldl f F) c).nfit = (F c).nfit := by
  intro l
  induction l with
  | nil => intro _ F; exact ⟨rfl, rfl⟩
  | cons b t ih =>
    intro h F
    rw [List.foldl_cons]
    have hb := h F b (List.mem_cons_self b t)
    have ht := ih (fun G i hm => h G i (List.mem_cons_of_mem b hm)) (f F b)
    exact ⟨ht.1.trans hb.1, ht.2.trans hb.2⟩

/-- A channel loop whose step preserves the committed entry `ip` and peak
count preserves both at every channel. -/
theorem chanUpd_fit_nfit {g : ℕ → MpFitData → MpFitData} (ip : ℕ)
    (h : ∀ i cd, ((g i cd).fit ip = cd.fit ip) ∧ ((g i cd).nfit = cd.nfit))
    (s n : ℕ) (F : ℕ → MpFitData) (c : ℕ) :
    ((chanUpd g s n F c).fit ip = (F c).fit ip)
    ∧ ((chanUpd g s n F c).nfit = (F c).nfit) := by
  rw [chanUpd_apply]
  split
  · exact h c (F c)
  · exact ⟨rfl, rfl⟩

/-- Transitivity of joint entry / count preservation. -/
theorem pres_trans {ip : ℕ} {X Y Z : MpFitData}
    (h1 : (X.fit ip = Y.fit ip) ∧ (X.nfit = Y.nfit))
    (h2 : (Y.fit ip = Z.fit ip) ∧ (Y.nfit = Z.nfit)) :
    (X.fit ip = Z.fit ip) ∧ (X.nfit = Z.nfit) :=
  ⟨h1.1.trans h2.1, h1.2.trans h2.2⟩

set_option maxHeartbeats 1000000 in
/-- C5 (corrected): the single-channel `newPeaks` does not append — it
discards the stored peaks and rebuilds exactly `n` fresh ones (count and
array length become `n` regardless of the previous contents) — whereas the
multi-plane `mpNewPeaks` does append: the coordinator count and every
channel count grow by exactly the number of candidates, and every
previously committed peak entry is preserved (`fn_newpeaks` supplied as an
appending capability, and channel counts in sync with the coordinator). -/
theorem C5_newpeaks_semantics
    (env : CEnv) (fd : FitData) (pd : ℕ → ℚ) (n : ℕ)
    (mp : MpFit) (fnNew : MpFitData → (ℕ → ℚ) → ℕ → MpFitData)
    (errNP : ℕ → ℕ → ℚ) (pp : ℕ → ℚ) (pt : PType) (np : ℕ)
    (hA : ∀ cd q m, (fnNew cd q m).nfit = cd.nfit + m)
    (hB : ∀ cd q m i, i < cd.nfit → (fnNew cd q m).fit i = cd.fit i)
    (hsync : ∀ c, (mp.fit_data c).nfit = mp.nfit)
    (c : ℕ) (hc : c < mp.n_channels) (ip : ℕ) (hip : ip < mp.nfit) :
    (newPeaks env fd pd n).nfit = n
    ∧ (newPeaks env fd pd n).fit.length = n
    ∧ (mpNewPeaks mp fnNew errNP pp pt np).nfit = mp.nfit + np
    ∧ ((mpNewPeaks mp fnNew errNP pp pt np).fit_data c).nfit = mp.nfit + np
    ∧ ((mpNewPeaks mp fnNew errNP pp pt np).fit_data c).fit ip
        = (mp.fit_data c).fit ip := by
  refine ⟨?_, ?_, ?_, ?_, ?_⟩
  · simp only [newPeaks]
    rw [mapPeaks_nfit _ (calcErrStep_nfit env)]
  · simp only [newPeaks]
    rw [mapPeaks_length, List.length_reverse, foldl_snd_length]
    · simp
    · intro a b
      rfl
  · rfl
  · simp only [mpNewPeaks]
    refine ((foldlF_fit_nfit _ c ip _ ?_ _).2).trans ?_
    · intro F i hm
      rw [List.mem_range'_1] at hm
      have hne : ip ≠ i := by omega
      split
      · refine chanUpd_fit_nfit ip ?_ _ _ _ _
        intro i2 cd
        refine ⟨?_, ?_⟩
        · split_ifs <;> simp [updAtN_apply, hne]
        · split_ifs <;> rfl
      · exact ⟨rfl, rfl⟩
    · split
      · refine ((foldlF_fit_nfit _ c ip _ ?_ _).2).trans ?_
        · intro F i hm
          rw [List.mem_range'_1] at hm
          have hne : ip ≠ i := by omega
          refine pres_trans (chanUpd_fit_nfit ip ?_ _ _ _ _)
            (pres_trans (chanUpd_fit_nfit ip ?_ _ _ _ _) (chanUpd_fit_nfit ip ?_ _ _ _ _))
          · intro i2 cd
            refine ⟨?_, ?_⟩
            · simp [updAtN_apply, hne]
            · rfl
          · intro i2 cd
            refine ⟨?_, ?_⟩ <;> split_ifs <;> rfl
          · intro i2 cd
            exact ⟨rfl, rfl⟩
        · simp only [chanUpd_apply]
          rw [if_pos (show (0 ≤ c ∧ c < 0 + mp.n_channels) from ⟨Nat.zero_le c, by omega⟩)]
          by_cases hc0 : c = 0
          · rw [if_pos hc0, hA, hsync]
          · rw [if_neg hc0, hA, hsync]
      · simp only [chanUpd_apply]
        rw [if_pos (show (0 ≤ c ∧ c < 0 + mp.n_channels) from ⟨Nat.zero_le c, by omega⟩)]
        by_cases hc0 : c = 0
        · rw [if_pos hc0, hA, hsync]
        · rw [if_neg hc0, hA, hsync]
  · simp only [mpNewPeaks]
    refine ((foldlF_fit_nfit _ c ip _ ?_ _).1).trans ?_
    · intro F i hm
      rw [List.mem_range'_1] at hm
      have hne : ip ≠ i := by omega
      split
      · refine chanUpd_fit_nfit ip ?_ _ _ _ _
        intro i2 cd
        refine ⟨?_, ?_⟩
        · split_ifs <;> simp [updAtN_apply, hne]
        · split_ifs <;> rfl
      · exact ⟨rfl, rfl⟩
    · split
      · refine ((foldlF_fit_nfit _ c ip _ ?_ _).1).trans ?_
        · intro F i hm
          rw [List.mem_range'_1] at hm
          have hne : ip ≠ i := by omega
          refine pres_trans (chanUpd_fit_nfit ip ?_ _ _ _ _)
            (pres_trans (chanUpd_fit_nfit ip ?_ _ _ _ _) (chanUpd_fit_nfit ip ?_ _ _ _ _))
          · intro i2 cd
            refine ⟨?_, ?_⟩
            · simp [updAtN_apply, hne]
            · rfl
          · intro i2 cd
            refine ⟨?_, ?_⟩ <;> split_ifs <;> rfl
          · intro i2 cd
            exact ⟨rfl, rfl⟩
        · simp only [chanUpd_apply]
          rw [if_pos (show (0 ≤ c ∧ c < 0 + mp.n_channels) from ⟨Nat.zero_le c, by omega⟩)]
          by_cases hc0 : c = 0
          · rw [if_pos hc0]
            exact hB _ _ _ _ (by rw [hsync]; exact hip)
          · rw [if_neg hc0]
            exact hB _ _ _ _ (by rw [hsync]; exact hip)
      · simp only [chanUpd_apply]
        rw [if_pos (show (0 ≤ c ∧ c < 0 + mp.n_channels) from ⟨Nat.zero_le c, by omega⟩)]
        by_cases hc0 : c = 0
        · rw [if_pos hc0]
          exact hB _ _ _ _ (by rw [hsync]; exact hip)
        · rw [if_neg hc0]
          exact hB _ _ _ _ (by rw [hsync]; exact hip)

/-- C5 (witness): the amended new-peaks law at concrete states. -/
theorem C5_newpeaks_witness :
    (0 < mpC2.n_channels ∧ 0 < mpC2.nfit)
    ∧ ((newPeaks cenv0 fdC5 pdataC5 1).nfit = 1
      ∧ (newPeaks cenv0 fdC5 pdataC5 1).fit.length = 1
      ∧ (mpNewPeaks mpC2 fnNew0 errNP0 ppC5 PType.hdf5 1).nfit = mpC2.nfit + 1
      ∧ ((mpNewPeaks mpC2 fnNew0 errNP0 ppC5 PType.hdf5 1).fit_data 0).nfit = mpC2.nfit + 1
      ∧ ((mpNewPeaks mpC2 fnNew0 errNP0 ppC5 PType.hdf5 1).fit_data 0).fit 0
          = (mpC2.fit_data 0).fit 0) :=
  ⟨⟨by decide, by decide⟩,
    C5_newpeaks_semantics cenv0 fdC5 pdataC5 1 mpC2 fnNew0 errNP0 ppC5 PType.hdf5 1
      (fun cd q m => rfl) (fun cd q m i hi => rfl) (fun ch => rfl)
      0 (by decide) 0 (by decide)⟩

/-- C5 (counterexample): on a store holding two peaks, the single-channel
new-peaks operation with one candidate leaves one stored peak, not three:
it replaces instead of appending. -/
theorem C5_newpeaks_cex :
    fdC5.fit.length = 2
    ∧ (newPeaks cenv0 fdC5 pdataC5 1).fit.length = 1
    ∧ (newPeaks cenv0 fdC5 pdataC5 1).fit.length ≠ fdC5.fit.length + 1 := by
  have h1 : (newPeaks cenv0 fdC5 pdataC5 1).fit.length = 1 := by
    simp only [newPeaks]
    rw [mapPeaks_length, List.length_reverse, foldl_snd_length]
    · simp
    · intro a b
      rfl
  exact ⟨rfl, h1, by rw [h1]; decide⟩

/-- The x cache fill touches only the cache arrays. -/
theorem fillX_fields (env : CEnv) (p : PeakData) :
    ((fillXCache env p).status, (fillXCache env p).wx, (fillXCache env p).wy,
      (fillXCache env p).params)
      = (p.status, p.wx, p.wy, p.params) := by
  simp only [fillXCache]
  refine foldl_preserves _ (fun q => (q.status, q.wx, q.wy, q.params)) ?_ _ p
  intro a b
  rfl

/-- The y cache fill touches only the cache arrays. -/
theorem fillY_fields (env : CEnv) (p : PeakData) :
    ((fillYCache env p).status, (fillYCache env p).wx, (fillYCache env p).wy,
      (fillYCache env p).params)
      = (p.status, p.wx, p.wy, p.params) := by
  simp only [fillYCache]
  refine foldl_preserves _ (fun q => (q.status, q.wx, q.wy, q.params)) ?_ _ p
  intro a b
  rfl

/-- Adding a peak to the residual does not change its status, box or
parameters. -/
theorem addPeak_fields_t (env : CEnv) (fd : FitData) (p : PeakData) :
    (((addPeak env fd p).2).status, ((addPeak env fd p).2).wx,
      ((addPeak env fd p).2).wy, ((addPeak env fd p).2).params)
      = (p.status, p.wx, p.wy, p.params) :=
  (fillY_fields env
      (fillXCache env { p with offset := p.yc * fd.image_size_x + p.xc })).trans
    (fillX_fields env { p with offset := p.yc * fd.image_size_x + p.xc })

theorem addPeak_status (env : CEnv) (fd : FitData) (p : PeakData) :
    ((addPeak env fd p).2).status = p.status :=
  congrArg (fun t => t.1) (addPeak_fields_t env fd p)

theorem addPeak_wx (env : CEnv) (fd : FitData) (p : PeakData) :
    ((addPeak env fd p).2).wx = p.wx :=
  congrArg (fun t => t.2.1) (addPeak_fields_t env fd p)

theorem addPeak_wy (env : CEnv) (fd : FitData) (p : PeakData) :
    ((addPeak env fd p).2).wy = p.wy :=
  congrArg (fun t => t.2.2.1) (addPeak_fields_t env fd p)

theorem addPeak_params (env : CEnv) (fd : FitData) (p : PeakData) :
    ((addPeak env fd p).2).params = p.params :=
  congrArg (fun t => t.2.2.2) (addPeak_fields_t env fd p)

/-- Range of `calcWidth`: with a nonnegative square root and a previous box
in `[0, MARGIN]`, the new box is again in `[0, MARGIN]` — the lower end 0
is reachable, there is no cap at 1. -/
theorem calcWidth_range (env : CEnv) (w : ℚ) (old_w : ℤ)
    (henv : ∀ q, 0 ≤ env.sqrt q) (h0 : 0 ≤ old_w) (h1 : old_w ≤ MARGIN) :
    0 ≤ calcWidth env w old_w ∧ calcWidth env w old_w ≤ MARGIN := by
  have ht : 0 ≤ (4 : ℚ) * env.sqrt (1 / (2 * w)) :=
    mul_nonneg (by norm_num) (henv _)
  have hf : (0 : ℤ) ≤ cInt (4 * env.sqrt (1 / (2 * w))) := by
    simp only [cInt, if_pos ht]
    exact Int.floor_nonneg.mpr ht
  simp only [calcWidth]
  split_ifs with hneg hhyst hcap hcap2
  · exact ⟨by norm_num, by norm_num [MARGIN]⟩
  · exact ⟨by norm_num [MARGIN], le_refl _⟩
  · exact ⟨hf, by omega⟩
  · exact ⟨by norm_num [MARGIN], le_refl _⟩
  · exact ⟨h0, by omega⟩

theorem daoHystX_wx (p : PeakData) : (daoHystX p).wx = p.wx := by
  simp only [daoHystX]
  split_ifs <;> rfl

theorem daoHystX_wy (p : PeakData) : (daoHystX p).wy = p.wy := by
  simp only [daoHystX]
  split_ifs <;> rfl

theorem daoHystY_wx (p : PeakData) : (daoHystY p).wx = p.wx := by
  simp only [daoHystY]
  split_ifs <;> rfl

theorem daoHystY_wy (p : PeakData) : (daoHystY p).wy = p.wy := by
  simp only [daoHystY]
  split_ifs <;> rfl

theorem daoMarginCheck_wx (fd : FitData) (p : PeakData) :
    ((daoMarginCheck fd p).2).wx = p.wx := by
  simp only [daoMarginCheck]
  split_ifs <;> rfl

theorem daoMarginCheck_wy (fd : FitData) (p : PeakData) :
    ((daoMarginCheck fd p).2).wy = p.wy := by
  simp only [daoMarginCheck]
  split_ifs <;> rfl

theorem daoHeightCheck_wx (fd : FitData) (p : PeakData) :
    ((daoHeightCheck fd p).2).wx = p.wx := by
  simp only [daoHeightCheck]
  split_ifs <;> rfl

theorem daoHeightCheck_wy (fd : FitData) (p : PeakData) :
    ((daoHeightCheck fd p).2).wy = p.wy := by
  simp only [daoHeightCheck]
  split_ifs <;> rfl

theorem daoWidthCheck_wx (fd : FitData) (p : PeakData) :
    ((daoWidthCheck fd p).2).wx = p.wx := by
  simp only [daoWidthCheck]
  split_ifs <;> rfl

theorem daoWidthCheck_wy (fd : FitData) (p : PeakData) :
    ((daoWidthCheck fd p).2).wy = p.wy := by
  simp only [daoWidthCheck]
  split_ifs <;> rfl

theorem daoZClamp_wx (fd : FitData) (p : PeakData) :
    (daoZClamp fd p).wx = p.wx := by
  simp only [daoZClamp]
  split_ifs <;> rfl

theorem daoZClamp_wy (fd : FitData) (p : PeakData) :
    (daoZClamp fd p).wy = p.wy := by
  simp only [daoZClamp]
  split_ifs <;> rfl

theorem daoHeightCheck_params (fd : FitData) (p : PeakData) :
    ((daoHeightCheck fd p).2).params = p.params := by
  simp only [daoHeightCheck]
  split_ifs <;> rfl

theorem daoWidthCheck_params (fd : FitData) (p : PeakData) :
    ((daoWidthCheck fd p).2).params = p.params := by
  simp only [daoWidthCheck]
  split_ifs <;> rfl

theorem daoHeightCheck_statusEq (fd : FitData) (p : PeakData) :
    ((daoHeightCheck fd p).2).status
      = if p.params HEIGHT < 0 then ERROR else p.status := by
  simp only [daoHeightCheck]
  split_ifs <;> rfl

theorem daoWidthCheck_statusEq (fd : FitData) (p : PeakData) :
    ((daoWidthCheck fd p).2).status
      = if p.params XWIDTH < 0 ∨ p.params YWIDTH < 0 then ERROR else p.status := by
  simp only [daoWidthCheck]
  split_ifs <;> rfl

theorem daoZClamp_heightParam (fd : FitData) (p : PeakData) :
    (daoZClamp fd p).params HEIGHT = p.params HEIGHT := by
  simp only [daoZClamp]
  split_ifs <;> simp [updAtN_apply, HEIGHT, ZCENTER]

/-- The update-and-check step never changes the x box size. -/
theorem fitDataUpdate_wx (fd : FitData) (p : PeakData) (delta : ℕ → ℚ) :
    ((fitDataUpdate fd p delta).2).wx = p.wx := by
  simp only [fitDataUpdate]
  rw [daoZClamp_wx, daoWidthCheck_wx, daoHeightCheck_wx, daoMarginCheck_wx,
    daoHystY_wx, daoHystX_wx]
  rfl

/-- The update-and-check step never changes the y box size. -/
theorem fitDataUpdate_wy (fd : FitData) (p : PeakData) (delta : ℕ → ℚ) :
    ((fitDataUpdate fd p delta).2).wy = p.wy := by
  simp only [fitDataUpdate]
  rw [daoZClamp_wy, daoWidthCheck_wy, daoHeightCheck_wy, daoMarginCheck_wy,
    daoHystY_wy, daoHystX_wy]
  rfl

/-- A peak that leaves the update-and-check step without ERROR has a
nonnegative height (the check flags only strictly negative heights). -/
theorem fitDataUpdate_height (fd : FitData) (p : PeakData) (delta : ℕ → ℚ)
    (h : ((fitDataUpdate fd p delta).2).status ≠ ERROR) :
    0 ≤ ((fitDataUpdate fd p delta).2).params HEIGHT := by
  simp only [fitDataUpdate] at h ⊢
  rw [daoZClamp_status, daoWidthCheck_statusEq, daoHeightCheck_statusEq] at h
  rw [daoZClamp_heightParam, daoWidthCheck_params, daoHeightCheck_params]
  by_contra hneg
  push_neg at hneg
  rw [if_pos hneg] at h
  simp at h

theorem calcWidthsFromZ_status (fd : FitData) (p : PeakData) :
    (calcWidthsFromZ fd p).status = p.status := rfl

theorem calcWidthsFromZ_wx (fd : FitData) (p : PeakData) :
    (calcWidthsFromZ fd p).wx = p.wx := rfl

theorem calcWidthsFromZ_wy (fd : FitData) (p : PeakData) :
    (calcWidthsFromZ fd p).wy = p.wy := rfl

theorem calcWidthsFromZ_heightParam (fd : FitData) (p : PeakData) :
    (calcWidthsFromZ fd p).params HEIGHT = p.params HEIGHT := by
  simp [calcWidthsFromZ, updAtN_apply, HEIGHT, XWIDTH, YWIDTH]

/-- The error pass preserves the amended running-peak invariant: it never
changes a peak's height or box, and never sets a status back to RUNNING. -/
theorem calcErrStep_peakOK (env : CEnv) (fd : FitData) (p : PeakData)
    (hP : peakOK p) : peakOK ((calcErrStep env fd p).2) := by
  simp only [calcErrStep]
  split_ifs with h1 h2 h3
  · intro hrun
    simp [ERROR, RUNNING] at hrun
  · intro hrun
    simp [CONVERGED, RUNNING] at hrun
  · intro hrun
    exact hP h1
  · exact hP

/-- Every element emitted by the threaded per-peak fold satisfies `Q`
whenever the step's output always does on the input list and the
accumulator's list already does. -/
theorem foldl_emit_prop (step : FitData → PeakData → FitData × PeakData)
    (Q : PeakData → Prop) :
    ∀ (l : List PeakData), (∀ fd2 p, p ∈ l → Q ((step fd2 p).2)) →
    ∀ (acc : FitData × List PeakData), (∀ p ∈ acc.2, Q p) →
    ∀ p ∈ (l.foldl
        (fun (acc : FitData × List PeakData) p =>
          ((step acc.1 p).1, (step acc.1 p).2 :: acc.2)) acc).2, Q p := by
  intro l
  induction l with
  | nil => intro _ acc hacc; exact hacc
  | cons b t ih =>
    intro h acc hacc
    rw [List.foldl_cons]
    refine ih (fun fd2 q hm => h fd2 q (List.mem_cons_of_mem b hm)) _ ?_
    intro q hq
    rcases List.mem_cons.mp hq with rfl | hq2
    · exact h acc.1 b (List.mem_cons_self b t)
    · exact hacc q hq2

/-- Every stored peak after a per-peak pass satisfies `Q` when the step's
output does on every input peak. -/
theorem mapPeaks_members (step : FitData → PeakData → FitData × PeakData)
    (fd : FitData) (Q : PeakData → Prop)
    (h : ∀ fd2 p, p ∈ fd.fit → Q ((step fd2 p).2)) :
    ∀ p ∈ (mapPeaks step fd).fit, Q p := by
  intro p hp
  simp only [mapPeaks] at hp
  rw [List.mem_reverse] at hp
  refine foldl_emit_prop step Q fd.fit h (fd, []) ?_ p hp
  intro q hq
  exact absurd hq (List.not_mem_nil q)

set_option maxHeartbeats 3000000 in
/-- The fixed-width update keeps the amended running-peak invariant. -/
theorem update2DFixed_peakOK (env : CEnv) (sol : Solver) (fd : FitData)
    (p : PeakData) (henv : ∀ q, 0 ≤ env.sqrt q) (hw : widthOK p) :
    peakOK ((update2DFixed env sol fd p).2) := by
  simp only [update2DFixed]
  split_ifs with h1
  · split
    · intro hrun
      simp [ERROR, RUNNING] at hrun
    · split_ifs with h2
      · intro hrun
        simp only [addPeak_status, addPeak_params, addPeak_wx, addPeak_wy,
          fitDataUpdate_wx, fitDataUpdate_wy] at hrun ⊢
        exact ⟨fitDataUpdate_height _ _ _ h2, hw.1, hw.2.1, hw.2.2.1, hw.2.2.2⟩
      · intro hrun
        rw [not_not] at h2
        rw [h2] at hrun
        simp [ERROR, RUNNING] at hrun
  · intro hrun
    exact absurd hrun h1

set_option maxHeartbeats 3000000 in
/-- The equal-width update keeps the amended running-peak invariant. -/
theorem update2D_peakOK (env : CEnv) (sol : Solver) (fd : FitData)
    (p : PeakData) (henv : ∀ q, 0 ≤ env.sqrt q) (hw : widthOK p) :
    peakOK ((update2D env sol fd p).2) := by
  simp only [update2D]
  split_ifs with h1
  · split
    · intro hrun
      simp [ERROR, RUNNING] at hrun
    · split_ifs with h2
      · intro hrun
        simp only [addPeak_status, addPeak_params, addPeak_wx, addPeak_wy,
          fitDataUpdate_wx, fitDataUpdate_wy] at hrun ⊢
        refine ⟨fitDataUpdate_height _ _ _ h2, ?_, ?_, ?_, ?_⟩
        · exact (calcWidth_range env _ _ henv hw.1 hw.2.1).1
        · exact (calcWidth_range env _ _ henv hw.1 hw.2.1).2
        · exact (calcWidth_range env _ _ henv hw.1 hw.2.1).1
        · exact (calcWidth_range env _ _ henv hw.1 hw.2.1).2
      · intro hrun
        rw [not_not] at h2
        rw [h2] at hrun
        simp [ERROR, RUNNING] at hrun
  · intro hrun
    exact absurd hrun h1

set_option maxHeartbeats 3000000 in
/-- The free-width update keeps the amended running-peak invariant. -/
theorem update3D_peakOK (env : CEnv) (sol : Solver) (fd : FitData)
    (p : PeakData) (henv : ∀ q, 0 ≤ env.sqrt q) (hw : widthOK p) :
    peakOK ((update3D env sol fd p).2) := by
  simp only [update3D]
  split_ifs with h1
  · split
    · intro hrun
      simp [ERROR, RUNNING] at hrun
    · split_ifs with h2
      · intro hrun
        simp only [addPeak_status, addPeak_params, addPeak_wx, addPeak_wy,
          fitDataUpdate_wx, fitDataUpdate_wy] at hrun ⊢
        refine ⟨fitDataUpdate_height _ _ _ h2, ?_, ?_, ?_, ?_⟩
        · exact (calcWidth_range env _ _ henv hw.1 hw.2.1).1
        · exact (calcWidth_range env _ _ henv hw.1 hw.2.1).2
        · exact (calcWidth_range env _ _ henv hw.2.2.1 hw.2.2.2).1
        · exact (calcWidth_range env _ _ henv hw.2.2.1 hw.2.2.2).2
      · intro hrun
        rw [not_not] at h2
        rw [h2] at hrun
        simp [ERROR, RUNNING] at hrun
  · intro hrun
    exact absurd hrun h1

set_option maxHeartbeats 3000000 in
/-- The z-coupled update keeps the amended running-peak invariant. -/
theorem updateZ_peakOK (env : CEnv) (sol : Solver) (fd : FitData)
    (p : PeakData) (henv : ∀ q, 0 ≤ env.sqrt q) (hw : widthOK p) :
    peakOK ((updateZ env sol fd p).2) := by
  simp only [updateZ]
  split_ifs with h1
  · split
    · intro hrun
      simp [ERROR, RUNNING] at hrun
    · split_ifs with h2
      · intro hrun
        simp only [addPeak_status, addPeak_params, addPeak_wx, addPeak_wy,
          calcWidthsFromZ_status, calcWidthsFromZ_heightParam,
          calcWidthsFromZ_wx, calcWidthsFromZ_wy,
          fitDataUpdate_wx, fitDataUpdate_wy] at hrun ⊢
        refine ⟨fitDataUpdate_height _ _ _ h2, ?_, ?_, ?_, ?_⟩
        · exact (calcWidth_range env _ _ henv hw.1 hw.2.1).1
        · exact (calcWidth_range env _ _ henv hw.1 hw.2.1).2
        · exact (calcWidth_range env _ _ henv hw.2.2.1 hw.2.2.2).1
        · exact (calcWidth_range env _ _ henv hw.2.2.1 hw.2.2.2).2
      · intro hrun
        rw [not_not] at h2
        rw [h2] at hrun
        simp [ERROR, RUNNING] at hrun
  · intro hrun
    exact absurd hrun h1

